import Mathlib

/-!
Verification of the `comune_extractor` pipeline against its specification.

The Python sources under `src/comune_extractor/` are shallowly embedded:
pure functions become Lean functions on `List Char` / `String` / `ℚ`,
stateful components (catalog, index, crawler) become explicit state-passing
functions, and fallible operations return `Option` / `Except`.  Numeric
values are modelled by exact rationals; character classes use the ASCII
fragment of Python's Unicode-aware classes, which covers every behaviour
the claims exercise.
-/

/-! ## Character and string helpers -/

/-- Python's whitespace class (ASCII fragment), as used by `str.strip()` and
the regex class `\s`. -/
def pyWs (c : Char) : Bool :=
  c == ' ' || c == '\t' || c == '\n' || c == '\r' || c == '\x0b' || c == '\x0c'

/-- Python `str.strip()` on a character list. -/
def pyStrip (cs : List Char) : List Char :=
  ((cs.dropWhile pyWs).reverse.dropWhile pyWs).reverse

/-- Does `needle` occur at the very beginning of `hay`? -/
def begMatch : List Char → List Char → Bool
  | [], _ => true
  | _ :: _, [] => false
  | a :: as, b :: bs => a == b && begMatch as bs

/-- Does `needle` occur contiguously anywhere in `hay`?  (Python's
`needle in hay` on strings, second operand.) -/
def hasSub (needle : List Char) : List Char → Bool
  | [] => begMatch needle []
  | c :: rest => begMatch needle (c :: rest) || hasSub needle rest

/-- Python's `needle in hay` substring test on strings. -/
def strContains (hay needle : String) : Bool :=
  hasSub needle.toList hay.toList

/-- Python `str.endswith`, computed characterwise. -/
def pyEndsWith (s suffix : String) : Bool :=
  begMatch suffix.toList.reverse s.toList.reverse

/-- Python `str.lower()` (ASCII fragment), computed characterwise. -/
def pyLower (s : String) : String :=
  (s.toList.map Char.toLower).asString

/-- Numeric value of a list of decimal digit characters, most significant
first (the usual positional reading used by `int`/`float` parsing). -/
def digitsVal (ds : List Char) : ℕ :=
  ds.foldl (fun a c => 10 * a + (c.toNat - 48)) 0

/-! ## `extract_heuristics.normalize_italian_number`

Embedding of `src/comune_extractor/extract_heuristics.py`, lines 9-57.
Python `float` is modelled over exact rationals by the decimal grammar
`[sign] (digits [. digits] | . digits | digits .) [(e|E) [sign] digits]`;
the special spellings `inf`/`nan` and digit-group underscores accepted by
CPython are outside the model (no claim exercises them). -/

/-- Exponent part of the `float` grammar: `[+|-] digits`, end of input. -/
def pyFloatExpTail (m : ℚ) (cs : List Char) : Option ℚ :=
  let p : ℤ × List Char :=
    match cs with
    | '+' :: r => (1, r)
    | '-' :: r => (-1, r)
    | _ => (1, cs)
  let ds := p.2.takeWhile Char.isDigit
  let rest := p.2.dropWhile Char.isDigit
  if ds.isEmpty || !rest.isEmpty then none
  else some (m * (10 : ℚ) ^ ((p.1 * (digitsVal ds : ℤ))))

/-- Tail of the `float` grammar after the mantissa: nothing, or an
exponent introduced by `e`/`E`. -/
def pyFloatTail (m : ℚ) : List Char → Option ℚ
  | [] => some m
  | 'e' :: r => pyFloatExpTail m r
  | 'E' :: r => pyFloatExpTail m r
  | _ => none

/-- Python `float(str)` on the decimal grammar, returning `none` where
CPython raises `ValueError`. -/
def pyFloat (cs : List Char) : Option ℚ :=
  let p : ℚ × List Char :=
    match cs with
    | '+' :: r => (1, r)
    | '-' :: r => (-1, r)
    | _ => (1, cs)
  let ip := p.2.takeWhile Char.isDigit
  let cs2 := p.2.dropWhile Char.isDigit
  match cs2 with
  | '.' :: r =>
    let fp := r.takeWhile Char.isDigit
    let cs3 := r.dropWhile Char.isDigit
    if ip.isEmpty && fp.isEmpty then none
    else (pyFloatTail ((digitsVal ip : ℚ) + (digitsVal fp : ℚ) / (10 : ℚ) ^ fp.length) cs3).map
      (fun v => p.1 * v)
  | _ =>
    if ip.isEmpty then none
    else (pyFloatTail (digitsVal ip : ℚ) cs2).map (fun v => p.1 * v)

/-- One pass of `re.sub(r'(?<=\d)[.\s](?=\d)', '', text)`: a `.` or
whitespace character is deleted exactly when its original neighbours on
both sides are digits.  `prev` is the character preceding the current
position in the original string (`'\x00'` initially: no previous char). -/
def stripThousandsAux (prev : Char) : List Char → List Char
  | [] => []
  | [c] => [c]
  | c :: d :: rest =>
    if (c == '.' || pyWs c) && prev.isDigit && d.isDigit
    then stripThousandsAux c (d :: rest)
    else c :: stripThousandsAux c (d :: rest)

/-- The `extract_heuristics.normalize_italian_number`: Italian-locale number
normalization (thousands dots/spaces, decimal comma, parenthesised
negatives, `%`, `€`), returning `none` on parse failure. -/
def normalize_italian_number (s : String) : Option ℚ :=
  let t0 := pyStrip s.toList
  let t1 := t0.filter (fun c => !(c == '€' || pyWs c))
  let isPct := t1.getLast? == some '%'
  let t2 := if isPct then pyStrip t1.dropLast else t1
  let parenNeg := t2.head? == some '(' && t2.getLast? == some ')'
  let t3 := if parenNeg then pyStrip (t2.drop 1).dropLast else t2
  let signNeg := t3.head? == some '-'
  let t4 := if t3.head? == some '-' || t3.head? == some '+' then pyStrip (t3.drop 1) else t3
  let isNeg := parenNeg || signNeg
  let t5 := stripThousandsAux '\x00' t4
  let t6 := t5.map (fun c => if c == ',' then '.' else c)
  (pyFloat t6).map (fun v =>
    let v1 := if isNeg then -v else v
    if isPct then v1 / 100 else v1)

/-! ## `extract_heuristics.score_extraction`

Embedding of `src/comune_extractor/extract_heuristics.py`, lines 112-152,
written as the sum of its sequentially accumulated bonuses.  `if year:`
is Python integer truthiness, hence the `y ≠ 0` guard. -/

/-- Number of supplied keywords textually present (case-insensitively) in
the snippet. -/
def keywordCount (snippet : String) (keywords : List String) : ℕ :=
  (keywords.filter (fun k => strContains (pyLower snippet) (pyLower k))).length

/-- The `extract_heuristics.score_extraction`: confidence score of one
extraction candidate. -/
def score_extraction (value : ℚ) (snippet : String) (keywords : List String)
    (expected_range : Option (ℚ × ℚ)) (year : Option ℤ) : ℚ :=
  (3 / 2 : ℚ) * keywordCount snippet keywords
    + (if 1 < keywordCount snippet keywords then (1 : ℚ) else 0)
    + (match year with
       | some y => if y ≠ 0 ∧ strContains snippet (toString y) = true then (1 / 2 : ℚ) else 0
       | none => 0)
    + (match expected_range with
       | some (min_val, max_val) =>
         if min_val ≤ value ∧ value ≤ max_val then (2 : ℚ) else -1
       | none => 0)
    + (if value < 1 / 100 ∨ (10 : ℚ) ^ 12 < value then -(3 / 2 : ℚ) else 0)

/-! ## `year_detect`

Embedding of `src/comune_extractor/year_detect.py`.  The two `re.findall`
patterns are embedded as explicit left-to-right scanners with the same
backtracking and consumption behaviour: a match consumes its matched
characters (including, for the URL pattern, the trailing delimiter), and
on failure the scan advances one character. -/

/-- Valid year range lower bound (`year_detect.MIN_VALID_YEAR`). -/
def MIN_VALID_YEAR : ℕ := 1990

/-- Valid year range upper bound (`year_detect.MAX_VALID_YEAR`). -/
def MAX_VALID_YEAR : ℕ := 2030

/-- Character class `[/_\-\s]` of the URL year pattern. -/
def isLeadDelim (c : Char) : Bool :=
  c == '/' || c == '_' || c == '-' || pyWs c

/-- Character class `[/_\-\s.]` of the URL year pattern. -/
def isTrailDelim (c : Char) : Bool :=
  isLeadDelim c || c == '.'

/-- Word character for the regex `\b` boundary and `\w` (ASCII fragment of
Python's Unicode-aware class). -/
def isPyWordChar (c : Char) : Bool :=
  c.isAlphanum || c == '_'

/-- Parse the group `(19\d{2}|20\d{2})` at the head of the input,
returning the year value and the remaining characters. -/
def yearTokenAt : List Char → Option (ℕ × List Char)
  | c1 :: c2 :: c3 :: c4 :: rest =>
    if ((c1 == '1' && c2 == '9') || (c1 == '2' && c2 == '0')) && c3.isDigit && c4.isDigit
    then some (1000 * (c1.toNat - 48) + 100 * (c2.toNat - 48)
          + 10 * (c3.toNat - 48) + (c4.toNat - 48), rest)
    else none
  | _ => none

/-- Trailing group `(?:[/_\-\s.]|$)` of the URL pattern: consume one
trailing delimiter, or succeed at end of input. -/
def urlTrail (y : ℕ) : List Char → Option (ℕ × List Char)
  | [] => some (y, [])
  | c :: rest => if isTrailDelim c then some (y, rest) else none

/-- One match attempt of `(?:^|[/_\-\s])(19\d{2}|20\d{2})(?:[/_\-\s.]|$)`
at the current position; `atStart` is true only at position 0 (where the
`^` alternative can fire). -/
def urlMatchAt (atStart : Bool) (cs : List Char) : Option (ℕ × List Char) :=
  let alt1 : Option (ℕ × List Char) :=
    if atStart then
      match yearTokenAt cs with
      | some (y, rest) => urlTrail y rest
      | none => none
    else none
  match alt1 with
  | some r => some r
  | none =>
    match cs with
    | c :: rest =>
      if isLeadDelim c then
        match yearTokenAt rest with
        | some (y, rest2) => urlTrail y rest2
        | none => none
      else none
    | [] => none

/-- The `re.findall` scanning loop for the URL pattern.  Fuel bounds the scan;
`length + 1` fuel always suffices since every step consumes at least one
character. -/
def urlScan : ℕ → Bool → List Char → List ℕ
  | 0, _, _ => []
  | _ + 1, _, [] => []
  | fuel + 1, atStart, c :: rest =>
    match urlMatchAt atStart (c :: rest) with
    | some (y, rest2) => y :: urlScan fuel false rest2
    | none => urlScan fuel false rest

/-- The `year_detect.detect_year_from_url`: all pattern matches, filtered to
the valid range, maximum if any survive. -/
def detect_year_from_url (url : String) : Option ℕ :=
  let years := urlScan (url.toList.length + 1) true url.toList
  (years.filter (fun y => decide (MIN_VALID_YEAR ≤ y ∧ y ≤ MAX_VALID_YEAR))).max?

/-- The `year_detect.detect_year_from_filename` delegates to the URL
detector. -/
def detect_year_from_filename (filename : String) : Option ℕ :=
  detect_year_from_url filename

/-- The `re.findall` scanning loop for `\b(19\d{2}|20\d{2})\b`.  `prev` is the
character before the current position (`none` at position 0); after a
match the previous character is the final digit of the year, and any
digit is equivalent for the `\b` test, so `'0'` is passed. -/
def textScan : ℕ → Option Char → List Char → List ℕ
  | 0, _, _ => []
  | _ + 1, _, [] => []
  | fuel + 1, prev, c :: rest =>
    match yearTokenAt (c :: rest) with
    | some (y, rest2) =>
      if (match prev with | none => true | some p => !isPyWordChar p)
          && (match rest2 with | [] => true | d :: _ => !isPyWordChar d)
      then y :: textScan fuel (some '0') rest2
      else textScan fuel (some c) rest
    | none => textScan fuel (some c) rest

/-- The `max(year_counts.items(), key=lambda x: (x[1], x[0]))[0]`: the year
maximizing (occurrence count, value) lexicographically.  The Python `max`
runs over the counter's distinct keys; since distinct years never tie on
the full key, folding over the occurrence list yields the same result. -/
def bestYear (ys : List ℕ) : Option ℕ :=
  ys.foldl (fun acc y =>
    match acc with
    | none => some y
    | some b =>
      if ys.count b < ys.count y ∨ (ys.count y = ys.count b ∧ b < y) then some y else some b)
    none

/-- The `year_detect.detect_year_from_text`: scan the first `max_chars`
characters for bounded year tokens, keep the in-range ones, and pick the
most frequent (most recent on ties). -/
def detect_year_from_text (text : String) (max_chars : ℕ := 5000) : Option ℕ :=
  let cs := text.toList.take max_chars
  let ys := textScan (cs.length + 1) none cs
  bestYear (ys.filter (fun y => decide (MIN_VALID_YEAR ≤ y ∧ y ≤ MAX_VALID_YEAR)))

/-- Python integer truthiness of an optional year (`if year:`). -/
def pyTruthy (y : Option ℕ) : Bool :=
  match y with
  | some n => n != 0
  | none => false

/-- The `year_detect.detect_year_comprehensive`: URL, then filename, then
content text.  `contentText` is the result of
`extract_first_pages_text` — `none` models the caught-exception path, an
empty string is falsy exactly as in the source. -/
def detect_year_comprehensive (url filename : String) (contentText : Option String) : Option ℕ :=
  let y1 := detect_year_from_url url
  if pyTruthy y1 then y1
  else
    let y2 := detect_year_from_filename filename
    if pyTruthy y2 then y2
    else
      match contentText with
      | some t =>
        if t ≠ "" then
          let y3 := detect_year_from_text t
          if pyTruthy y3 then y3 else none
        else none
      | none => none

/-! ## `pdf_text.extract_text` and `extract_text_per_page`

Embedding of `src/comune_extractor/pdf_text.py`, lines 62-101.  An engine
run is a value of `Except Unit α`: `.ok` is the returned payload,
`.error ()` a raised exception.  `primary` stands for the PyMuPDF
engine's outcome on the document, `fallback` for pdfplumber's. -/

/-- Fallback block shared by both variants: accept pdfplumber's output
unconditionally; re-raise if it raised. -/
def secondaryWhole (fallback : Except Unit (String × ℕ)) : Except Unit (String × ℕ × String) :=
  match fallback with
  | .ok (t, p) => .ok (t, p, "pdfplumber")
  | .error e => .error e

/-- The `pdf_text.extract_text`: primary engine accepted only when its text is
non-empty after stripping; otherwise the fallback engine's result stands,
and only a fallback exception aborts. -/
def extract_text (primary fallback : Except Unit (String × ℕ)) :
    Except Unit (String × ℕ × String) :=
  match primary with
  | .ok (t, p) =>
    if pyStrip t.toList ≠ [] then .ok (t, p, "pymupdf")
    else secondaryWhole fallback
  | .error _ => secondaryWhole fallback

/-- Fallback block of the per-page variant. -/
def secondaryPages (fallback : Except Unit (List String × ℕ)) :
    Except Unit (List String × ℕ × String) :=
  match fallback with
  | .ok (ts, p) => .ok (ts, p, "pdfplumber")
  | .error e => .error e

/-- The `pdf_text.extract_text_per_page`: identical contract with "some page
has non-whitespace text" as the primary acceptance test. -/
def extract_text_per_page (primary fallback : Except Unit (List String × ℕ)) :
    Except Unit (List String × ℕ × String) :=
  match primary with
  | .ok (ts, p) =>
    if ts.any (fun t => !(pyStrip t.toList).isEmpty) then .ok (ts, p, "pymupdf")
    else secondaryPages fallback
  | .error _ => secondaryPages fallback

/-! ## `indexer.BM25Index` and `retrieval.Retriever`

Embedding of `src/comune_extractor/indexer.py` and `retrieval.py`.  The
`rank_bm25.BM25Okapi` collaborator is abstracted: the fitted model is
represented by the tokenized corpus it was built from, and scoring is a
parameter `getScores` mapping (corpus, query tokens) to the per-chunk
score list (`BM25Okapi.get_scores` returns one score per corpus entry;
chunk/score pairing is positional, per the alignment invariant).
`list.sort(key=lambda x: x['score'], reverse=True)` is Python's stable
sort run descending on the score; it is realized here as a stable
insertion sort with the same semantics. -/

/-- Metadata dictionary of one indexed chunk
(`{sha1, text, year, url, filename, page_no}`); `page_no` is optional for
old-format snapshots, read back with default 0, and `year` may be absent
(`none`). -/
structure Chunk where
  sha1 : String
  page_no : Option ℕ
  year : Option ℤ
  url : String
  filename : String
  text : String
deriving DecidableEq

/-- Accumulate maximal runs of word characters (`re.findall(r'\w+', text)`);
`cur` is the reversed run in progress. -/
def tokenRunsAux : List Char → List Char → List (List Char)
  | cur, [] => if cur.isEmpty then [] else [cur.reverse]
  | cur, c :: rest =>
    if isPyWordChar c then tokenRunsAux (c :: cur) rest
    else if cur.isEmpty then tokenRunsAux [] rest
    else cur.reverse :: tokenRunsAux [] rest

/-- The `indexer.simple_tokenize`: lowercase, then maximal `\w+` runs. -/
def simple_tokenize (s : String) : List String :=
  (tokenRunsAux [] (pyLower s).toList).map List.asString

/-- One search result: the chunk dictionary with its score added
(`{**chunk, 'score': score}`). -/
structure ScoredChunk where
  chunk : Chunk
  score : ℚ
deriving DecidableEq

/-- Merge key of `retrieve_multi_query`:
`(result['sha1'], result.get('page_no', 0))`. -/
def chunkKey (r : ScoredChunk) : String × ℕ :=
  (r.chunk.sha1, r.chunk.page_no.getD 0)

/-- Descending-by-score order used by the result sorts; a stable sort
under this relation is exactly Python's
`sort(key=lambda x: x['score'], reverse=True)`. -/
def scoreGe (a b : ScoredChunk) : Prop :=
  b.score ≤ a.score

instance : DecidableRel scoreGe :=
  fun a b => inferInstanceAs (Decidable (b.score ≤ a.score))

instance : IsTotal ScoredChunk scoreGe :=
  ⟨fun a b => le_total b.score a.score⟩

instance : IsTrans ScoredChunk scoreGe :=
  ⟨fun _ _ _ hab hbc => le_trans hbc hab⟩

/-- Stable descending sort of search results. -/
def sortByScoreDesc (l : List ScoredChunk) : List ScoredChunk :=
  l.insertionSort scoreGe

/-- In-memory state of `indexer.BM25Index`: the fitted ranking model (if
any, represented by its training corpus), the chunk-metadata list, and
the tokenized corpus. -/
structure BM25Index where
  bm25 : Option (List (List String))
  chunks : List Chunk
  tokenized_corpus : List (List String)
deriving DecidableEq

/-- The `BM25Index.search`: score every chunk, drop chunks failing the year
filter, sort descending by score, truncate to `top_k`.  The Python loop
pairs `scores[idx]` with `chunks[idx]`; the zip realizes that positional
pairing. -/
def BM25Index.search (getScores : List (List String) → List String → List ℚ)
    (self : BM25Index) (query : String) (top_k : ℕ) (year_filter : Option ℤ) :
    List ScoredChunk :=
  match self.bm25 with
  | none => []
  | some corpus =>
    let scores := getScores corpus (simple_tokenize query)
    let results := ((self.chunks.zip scores).filter (fun p =>
        match year_filter with
        | none => true
        | some y => p.1.year == some y)).map (fun p => ⟨p.1, p.2⟩)
    (sortByScoreDesc results).take top_k

/-- The `Retriever.retrieve`: `search`, then the `min_score` filter (applied
only when `min_score > 0`). -/
def Retriever.retrieve (getScores : List (List String) → List String → List ℚ)
    (index : BM25Index) (query : String) (top_k : ℕ) (year : Option ℤ)
    (min_score : ℚ) : List ScoredChunk :=
  let results := index.search getScores query top_k year
  if 0 < min_score then results.filter (fun r => decide (min_score ≤ r.score)) else results

/-- One dictionary update of the multi-query merge:
`if key not in all_results or result['score'] > all_results[key]['score']:
all_results[key] = result`.  A Python dict update keeps the key's
original position, modelled by in-place replacement in the association
list. -/
def dictUpsert : List ScoredChunk → ScoredChunk → List ScoredChunk
  | [], r => [r]
  | x :: xs, r =>
    if chunkKey x = chunkKey r then (if x.score < r.score then r else x) :: xs
    else x :: dictUpsert xs r

/-- The `Retriever.retrieve_multi_query`: run `retrieve` per query, merge by
key keeping the highest score, re-sort descending, truncate to
`top_k`. -/
def Retriever.retrieve_multi_query (getScores : List (List String) → List String → List ℚ)
    (index : BM25Index) (queries : List String) (top_k : ℕ) (year : Option ℤ)
    (min_score : ℚ) : List ScoredChunk :=
  let merged := queries.foldl
    (fun acc query =>
      (Retriever.retrieve getScores index query top_k year min_score).foldl dictUpsert acc)
    []
  (sortByScoreDesc merged).take top_k

/-! ## `BM25Index` lifecycle: `build_index`, `add_chunks`, `save`, `load`

Embedding of `src/comune_extractor/indexer.py`, lines 35-152.  The three
pickle artifacts written together by `save` are modelled as one optional
triple; `load` restores whatever was saved, returning `False` (state
untouched) when the artifacts are absent. -/

/-- Tokenization of one chunk as performed by `build_index` and
`add_chunks` (`simple_tokenize(chunk.get('text', ''))`). -/
def chunkTokens (c : Chunk) : List String :=
  simple_tokenize c.text

/-- The `BM25Index.build_index`: replace the chunk list, tokenize every chunk
in order, and fit a fresh ranking model on the tokenized corpus. -/
def BM25Index.build_index (_self : BM25Index) (chunks : List Chunk) : BM25Index :=
  { bm25 := some (chunks.map chunkTokens)
    chunks := chunks
    tokenized_corpus := chunks.map chunkTokens }

/-- The `BM25Index.add_chunks`: with no fitted model, build fresh; otherwise
append the new chunks and their tokens in lockstep and refit the model on
the accumulated corpus. -/
def BM25Index.add_chunks (self : BM25Index) (new_chunks : List Chunk) : BM25Index :=
  match self.bm25 with
  | none => self.build_index new_chunks
  | some _ =>
    { bm25 := some (self.tokenized_corpus ++ new_chunks.map chunkTokens)
      chunks := self.chunks ++ new_chunks
      tokenized_corpus := self.tokenized_corpus ++ new_chunks.map chunkTokens }

/-- The co-located index artifacts (`bm25_index.pkl`, `chunks.pkl`,
`corpus.pkl`), present together after a `save`. -/
structure IndexDisk where
  files : Option (Option (List (List String)) × List Chunk × List (List String))
deriving DecidableEq

/-- The `BM25Index.save`: write the three artifacts. -/
def BM25Index.save (self : BM25Index) : IndexDisk :=
  ⟨some (self.bm25, self.chunks, self.tokenized_corpus)⟩

/-- The `BM25Index.load`: restore all three artifacts when present (returning
`true`), leave the state untouched and return `false` otherwise. -/
def BM25Index.load (self : BM25Index) (d : IndexDisk) : BM25Index × Bool :=
  match d.files with
  | none => (self, false)
  | some (b, cs, corp) => (⟨b, cs, corp⟩, true)

/-- The operations through which index states are reached. -/
inductive IndexOp where
  | build (cs : List Chunk)
  | add (cs : List Chunk)
  | save
  | load
deriving DecidableEq

/-- One lifecycle step on the (in-memory state, disk) pair. -/
def indexStep : BM25Index × IndexDisk → IndexOp → BM25Index × IndexDisk
  | (st, d), .build cs => (st.build_index cs, d)
  | (st, d), .add cs => (st.add_chunks cs, d)
  | (st, _), .save => (st, st.save)
  | (st, d), .load => ((st.load d).1, d)

/-- A fresh `BM25Index(index_dir)` with no artifacts on disk. -/
def indexInit : BM25Index × IndexDisk :=
  (⟨none, [], []⟩, ⟨none⟩)

/-- Run a sequence of lifecycle operations from the fresh state. -/
def runIndexOps (ops : List IndexOp) : BM25Index × IndexDisk :=
  ops.foldl indexStep indexInit

/-- Alignment invariant of an index state: the tokenized corpus is
positionally the tokenization of the chunk list (hence equal length). -/
def indexAligned (st : BM25Index) : Prop :=
  st.tokenized_corpus = st.chunks.map chunkTokens

/-! ## `crawler.Crawler`

Embedding of `src/comune_extractor/crawler.py`.  Network and HTML
concerns are abstracted into an environment: `canFetch` is the robots
handler's verdict, `sameDomain` the netloc comparison, and `fetchPage`
the result of `requests.get` plus link extraction — `none` models a
transport error or timeout (the caught-exception path), otherwise the
status code, the `Content-Type` header, and the page's outbound links
already resolved to absolute URLs.  Sitemap XML fetching/parsing is
likewise abstracted: `listed` is the list of page URLs the sitemaps
enumerate, in order; classifying them performs no fetch (only the
breadth-first phase fetches pages).  The BFS loop runs on explicit fuel;
every theorem holds for every fuel value.  The run also records, in
order, the URLs actually fetched by the breadth-first phase. -/

/-- Per-run crawl state: the visited set (a Python `set`, modelled as a
duplicate-free membership list), and the discovered PDF and HTML URL
lists. -/
structure CrawlState where
  visited : List String
  pdf_urls : List String
  html_urls : List String
deriving DecidableEq

/-- Crawl environment: robots verdict, same-domain test, and the network
(`requests.get` + link extraction). -/
structure CrawlEnv where
  canFetch : String → Bool
  sameDomain : String → Bool
  fetchPage : String → Option (ℕ × String × List String)

/-- The `Crawler._process_url`: classify one sitemap-listed URL as PDF or
HTML without fetching it; skipped when already visited or when the PDF
cap is reached. -/
def Crawler.process_url (env : CrawlEnv) (max_pdfs : ℕ) (st : CrawlState)
    (url : String) : CrawlState :=
  if url ∈ st.visited then st
  else if max_pdfs ≤ st.pdf_urls.length then st
  else
    let st2 : CrawlState := { st with visited := st.visited ++ [url] }
    if pyEndsWith (pyLower url) ".pdf" then
      if env.canFetch url then { st2 with pdf_urls := st2.pdf_urls ++ [url] } else st2
    else { st2 with html_urls := st2.html_urls ++ [url] }

/-- The `Crawler._bfs_crawl`: breadth-first traversal from the queue,
returning the final state and the list of URLs fetched over the network,
in order.  The loop caps are checked before each dequeue, exactly as the
`while` condition does. -/
def Crawler.bfs_crawl (env : CrawlEnv) (max_pages max_pdfs : ℕ) :
    ℕ → CrawlState → List String → List String → CrawlState × List String
  | 0, st, _, fetched => (st, fetched)
  | _ + 1, st, [], fetched => (st, fetched)
  | fuel + 1, st, url :: rest, fetched =>
    if ¬(st.visited.length < max_pages ∧ st.pdf_urls.length < max_pdfs) then (st, fetched)
    else if url ∈ st.visited then
      Crawler.bfs_crawl env max_pages max_pdfs fuel st rest fetched
    else if ¬env.sameDomain url then
      Crawler.bfs_crawl env max_pages max_pdfs fuel st rest fetched
    else if ¬env.canFetch url then
      Crawler.bfs_crawl env max_pages max_pdfs fuel st rest fetched
    else
      let st2 : CrawlState := { st with visited := st.visited ++ [url] }
      if pyEndsWith (pyLower url) ".pdf" then
        Crawler.bfs_crawl env max_pages max_pdfs fuel
          { st2 with pdf_urls := st2.pdf_urls ++ [url] } rest fetched
      else
        match env.fetchPage url with
        | none =>
          Crawler.bfs_crawl env max_pages max_pdfs fuel st2 rest (fetched ++ [url])
        | some (status, ctype, links) =>
          if status ≠ 200 then
            Crawler.bfs_crawl env max_pages max_pdfs fuel st2 rest (fetched ++ [url])
          else if strContains (pyLower ctype) "pdf" then
            Crawler.bfs_crawl env max_pages max_pdfs fuel
              { st2 with pdf_urls := st2.pdf_urls ++ [url] } rest (fetched ++ [url])
          else if ¬strContains (pyLower ctype) "html" then
            Crawler.bfs_crawl env max_pages max_pdfs fuel st2 rest (fetched ++ [url])
          else
            let st3 : CrawlState := { st2 with html_urls := st2.html_urls ++ [url] }
            let newLinks := links.filter
              (fun l => decide (l ∉ st3.visited) && env.sameDomain l)
            Crawler.bfs_crawl env max_pages max_pdfs fuel st3 (rest ++ newLinks)
              (fetched ++ [url])

/-- Sitemap seeding phase of `Crawler.crawl`: classify every listed URL
in order, starting from the fresh per-run state. -/
def Crawler.seed (env : CrawlEnv) (max_pdfs : ℕ) (listed : List String) : CrawlState :=
  listed.foldl (Crawler.process_url env max_pdfs) ⟨[], [], []⟩

/-- The `Crawler.crawl`: sitemap seeding, then — when neither cap is
reached — the breadth-first phase from the base URL.  Returns the final
state and the list of URLs fetched by the breadth-first phase. -/
def Crawler.crawl (env : CrawlEnv) (base_url : String) (max_pages max_pdfs : ℕ)
    (listed : List String) (fuel : ℕ) : CrawlState × List String :=
  let st1 := Crawler.seed env max_pdfs listed
  if st1.pdf_urls.length < max_pdfs ∧ st1.visited.length < max_pages then
    Crawler.bfs_crawl env max_pages max_pdfs fuel st1 [base_url] []
  else (st1, [])

/-- Concrete crawl environment: everything fetchable and same-domain,
every page an HTML page with no outbound links. -/
def sampleCrawlEnv : CrawlEnv :=
  ⟨fun _ => true, fun _ => true, fun _ => some (200, "text/html", [])⟩

/-! ## `catalog.Catalog` and `pdf_store.PDFStore`

Embedding of `src/comune_extractor/catalog.py` and `pdf_store.py`
(sequential fragment).  The SQLite `pdfs` table is a list of rows with
`sha1` as primary key: `INSERT OR REPLACE` replaces the row holding the
same `sha1`.  The filesystem is a list of existing paths with membership
semantics: a write pushes the path, `unlink`/`rename` remove it.  The
network is a function `web`; `none` models a transport error.  SHA-1 is
modelled as injective: the digest of a body is the body itself.  Year
detection over the downloaded file (`detect_year_comprehensive` reading
the PDF) is abstracted as `yearDetect body url original_name`. -/

/-- One row of the `pdfs` table. -/
structure PdfRow where
  sha1 : String
  url : String
  original_name : String
  local_path : String
  detected_year : Option ℤ
  content_type : String
  size_bytes : ℕ
deriving DecidableEq

/-- The catalog database (the `pdfs` table; the other tables play no role
in the dedup claims). -/
structure CatalogDB where
  pdfs : List PdfRow
deriving DecidableEq

/-- The `Catalog.pdf_exists`: `SELECT * FROM pdfs WHERE url = ?`. -/
def Catalog.pdf_exists (db : CatalogDB) (url : String) : Option PdfRow :=
  db.pdfs.find? (fun r => r.url == url)

/-- The `Catalog.pdf_exists_by_sha1`: `SELECT * FROM pdfs WHERE sha1 = ?`. -/
def Catalog.pdf_exists_by_sha1 (db : CatalogDB) (sha1 : String) : Option PdfRow :=
  db.pdfs.find? (fun r => r.sha1 == sha1)

/-- The `Catalog.add_pdf`: `INSERT OR REPLACE INTO pdfs`, keyed on the `sha1`
primary key. -/
def Catalog.add_pdf (db : CatalogDB) (row : PdfRow) : CatalogDB :=
  if db.pdfs.any (fun r => r.sha1 == row.sha1) then
    ⟨db.pdfs.map (fun r => if r.sha1 == row.sha1 then row else r)⟩
  else ⟨db.pdfs ++ [row]⟩

/-- An HTTP response (`requests.get`): status code, `Content-Type`
header, body bytes. -/
structure HttpResponse where
  status : ℕ
  content_type : String
  body : String
deriving DecidableEq

/-- Store environment: the network, and content-based year detection on
the downloaded bytes. -/
structure StoreEnv where
  web : String → Option HttpResponse
  yearDetect : String → String → String → Option ℤ

/-- Store state: catalog plus the set of files existing on disk. -/
structure StoreState where
  db : CatalogDB
  files : List String
deriving DecidableEq

/-- Outcome of `PDFStore._download_pdf`. -/
inductive StoreStatus where
  | downloaded
  | cached
  | deduplicated
  | failed
deriving DecidableEq

/-- Python `str.split(sep)` for a one-character separator: `cur` holds
the reversed current field. -/
def splitOnCharAux (sep : Char) : List Char → List Char → List (List Char)
  | cur, [] => [cur.reverse]
  | cur, c :: rest =>
    if c == sep then cur.reverse :: splitOnCharAux sep [] rest
    else splitOnCharAux sep (c :: cur) rest

/-- Python `str.split(sep)` for a one-character separator. -/
def splitOnChar (sep : Char) (cs : List Char) : List (List Char) :=
  splitOnCharAux sep [] cs

/-- Join fields with a one-character separator (`sep.join(fields)`). -/
def joinWithChar (sep : Char) : List (List Char) → List Char
  | [] => []
  | [x] => x
  | x :: y :: rest => x ++ sep :: joinWithChar sep (y :: rest)

/-- The `url.split('/')[-1].split('?')[0]`, with `.pdf` appended when
missing. -/
def originalNameOf (url : String) : String :=
  let seg := ((splitOnChar '/' url.toList).getLast?).getD []
  let base := (((splitOnChar '?' seg).head?).getD []).asString
  if pyEndsWith base ".pdf" then base else base ++ ".pdf"

/-- The `paths.sanitize_filename`: keep alphanumerics and `.-_`, replace the
rest by `_`, cap the length at `max_length` preserving the extension
(extensions close to the cap follow Python's negative-slice behaviour, which no
claim exercises). -/
def sanitize_filename (filename : String) (max_length : ℕ := 200) : String :=
  let safe := filename.toList.map (fun c =>
    if c.isAlphanum || c == '.' || c == '-' || c == '_' then c else '_')
  if max_length < safe.length then
    if safe.contains '.' then
      let parts := splitOnChar '.' safe
      let ext := (parts.getLast?).getD []
      let name := joinWithChar '.' parts.dropLast
      if ext ≠ [] then
        (name.take (max_length - ext.length - 1)).asString ++ "." ++ ext.asString
      else (name.take max_length).asString
    else (safe.take max_length).asString
  else safe.asString

/-- Directory-name component for a detected year (`str(year)` or
`"unknown"`). -/
def yearDirName (year : Option ℤ) : String :=
  match year with
  | none => "unknown"
  | some y => toString y

/-- The `paths.get_pdf_dir`: `base/comune/year-or-unknown/pdf`. -/
def get_pdf_dir (base_dir comune : String) (year : Option ℤ) : String :=
  base_dir ++ "/" ++ pyLower comune ++ "/" ++ yearDirName year ++ "/pdf"

/-- Temporary download path `{base}/{comune}/temp/{original_name}`. -/
def tempPathOf (base_dir comune name : String) : String :=
  base_dir ++ "/" ++ pyLower comune ++ "/temp/" ++ name

/-- Body of `PDFStore._download_pdf` past the URL-cache check: fetch,
validate, write a temp file, hash, then deduplicate or store fresh. -/
def PDFStore.downloadFresh (env : StoreEnv) (base_dir comune : String)
    (st : StoreState) (url : String) : StoreState × StoreStatus × Bool :=
  match env.web url with
  | none => (st, .failed, true)
  | some resp =>
    if resp.status ≠ 200 then (st, .failed, true)
    else if strContains (pyLower resp.content_type) "pdf" = false
        ∧ pyEndsWith (pyLower url) ".pdf" = false then (st, .failed, true)
    else
      let original_name := originalNameOf url
      let temp_path := tempPathOf base_dir comune original_name
      let files1 := temp_path :: st.files
      let sha1 := resp.body
      match Catalog.pdf_exists_by_sha1 st.db sha1 with
      | some ex =>
        let files2 := files1.erase temp_path
        let db2 := Catalog.add_pdf st.db
          ⟨sha1, url, original_name, ex.local_path, ex.detected_year,
            resp.content_type, ex.size_bytes⟩
        (⟨db2, files2⟩, .deduplicated, true)
      | none =>
        let detected_year := env.yearDetect resp.body url original_name
        let final_path := get_pdf_dir base_dir comune detected_year ++ "/"
          ++ (sha1.toList.take 8).asString ++ "_" ++ sanitize_filename original_name
        let files2 := final_path :: files1.erase temp_path
        let db2 := Catalog.add_pdf st.db
          ⟨sha1, url, original_name, final_path, detected_year,
            resp.content_type, resp.body.length⟩
        (⟨db2, files2⟩, .downloaded, true)

/-- The `PDFStore._download_pdf`: answer `cached` without touching the
network when the URL is catalogued and its file still exists; otherwise
run the download body.  The boolean records whether a network request was
made. -/
def PDFStore.download_pdf (env : StoreEnv) (base_dir comune : String)
    (st : StoreState) (url : String) : StoreState × StoreStatus × Bool :=
  match Catalog.pdf_exists st.db url with
  | some row =>
    if row.local_path ∈ st.files then (st, .cached, false)
    else PDFStore.downloadFresh env base_dir comune st url
  | none => PDFStore.downloadFresh env base_dir comune st url

/-- Concrete network: two distinct URLs serving byte-identical PDF
content. -/
def sampleWeb : String → Option HttpResponse := fun u =>
  if u = "http://a.example/x.pdf" ∨ u = "http://b.example/mirror/x.pdf" then
    some ⟨200, "application/pdf", "PDFBYTES"⟩
  else none

/-- Concrete store environment over `sampleWeb` with no detected year. -/
def sampleStoreEnv : StoreEnv :=
  ⟨sampleWeb, fun _ _ _ => none⟩

/-! ## Theorems -/

/-- Maximum of a list of naturals: membership and upper-bound facts. -/
theorem natMax?_spec (l : List ℕ) (y : ℕ) (h : l.max? = some y) :
    y ∈ l ∧ ∀ z ∈ l, z ≤ y := by
  refine ⟨List.max?_mem (fun a b => max_choice a b) h, ?_⟩
  exact (List.max?_le_iff (fun a b c => max_le_iff) h).mp le_rfl

/-- Helper: `bestYear` only ever returns a member of its input list. -/
theorem bestYear_mem (ys : List ℕ) (y : ℕ) (h : bestYear ys = some y) : y ∈ ys := by
  unfold bestYear at h
  suffices H : ∀ (l : List ℕ) (acc : Option ℕ), l ⊆ ys → (∀ a, acc = some a → a ∈ ys) →
      ∀ v, List.foldl (fun acc y =>
        match acc with
        | none => some y
        | some b =>
          if ys.count b < ys.count y ∨ (ys.count y = ys.count b ∧ b < y) then some y else some b)
        acc l = some v → v ∈ ys by
    exact H ys none (fun a ha => ha) (by intro a ha; cases ha) y h
  intro l
  induction l with
  | nil => intro acc _ hacc v hv; exact hacc v hv
  | cons b t ih =>
    intro acc hsub hacc v hv
    refine ih _ (fun x hx => hsub (List.mem_cons_of_mem _ hx)) ?_ v hv
    intro a ha
    rcases hx : acc with _ | w
    · subst hx; simp only at ha
      cases ha; exact hsub (List.mem_cons_self _ _)
    · subst hx; simp only at ha
      split at ha
      · cases ha; exact hsub (List.mem_cons_self _ _)
      · cases ha; exact hacc _ rfl

/-- C3: `normalize_italian_number` maps `"1.234,56"` to `1234.56`,
`"(1.234,56)"` to `-1234.56`, `"12,5%"` to `0.125` and `"€ 1.234,56"` to
`1234.56`; on any input it either yields a number or yields no value
(`none`), never an error. -/
theorem C3_normalize_italian_number :
    normalize_italian_number "1.234,56" = some (1234.56 : ℚ)
      ∧ normalize_italian_number "(1.234,56)" = some (-1234.56 : ℚ)
      ∧ normalize_italian_number "12,5%" = some (0.125 : ℚ)
      ∧ normalize_italian_number "€ 1.234,56" = some (1234.56 : ℚ)
      ∧ ∀ s : String,
          normalize_italian_number s = none ∨ ∃ q : ℚ, normalize_italian_number s = some q := by
  refine ⟨?_, ?_, ?_, ?_, fun s => ?_⟩
  · simp +decide [normalize_italian_number, pyStrip, pyWs, stripThousandsAux, pyFloat,
      pyFloatTail, pyFloatExpTail, digitsVal]
    norm_num
  · simp +decide [normalize_italian_number, pyStrip, pyWs, stripThousandsAux, pyFloat,
      pyFloatTail, pyFloatExpTail, digitsVal]
    norm_num
  · simp +decide [normalize_italian_number, pyStrip, pyWs, stripThousandsAux, pyFloat,
      pyFloatTail, pyFloatExpTail, digitsVal]
    norm_num
  · simp +decide [normalize_italian_number, pyStrip, pyWs, stripThousandsAux, pyFloat,
      pyFloatTail, pyFloatExpTail, digitsVal]
    norm_num
  · cases h : normalize_italian_number s with
    | none => exact Or.inl rfl
    | some q => exact Or.inr ⟨q, rfl⟩

/-- C4 counterexample: the −1.5 penalty is keyed on the signed value, not
its magnitude.  The value of `-1000` has magnitude `1000`, comfortably
inside `[0.01, 1e12]`, yet an otherwise-identical candidate pair shows the
penalty applied to it (score `-1.5` versus `0`). -/
theorem C4_counterexample :
    score_extraction (-1000) "" [] none none = -(3 / 2 : ℚ)
      ∧ score_extraction 1000 "" [] none none = 0
      ∧ ¬(|(-1000 : ℚ)| < 1 / 100 ∨ (10 : ℚ) ^ 12 < |(-1000 : ℚ)|) := by
  refine ⟨?_, ?_, ?_⟩
  · simp +decide [score_extraction, keywordCount]
    norm_num
  · simp +decide [score_extraction, keywordCount]
    norm_num
  · norm_num

/-- C4 (amended): `score_extraction` applies its −1.5 penalty exactly when
the signed value is below 0.01 or above 1e12 (so every negative value is
penalized as well): two candidates identical in snippet, keywords,
expected range and year, agreeing on range membership, differ by exactly
1.5 when exactly one of them triggers the condition; consequently a value
of 1e13 scores strictly lower than an otherwise-identical in-range value
of 1000. -/
theorem C4_magnitude_penalty_amended :
    (∀ (s : String) (kws : List String) (rng : Option (ℚ × ℚ)) (yr : Option ℤ) (v w : ℚ),
        (v < 1 / 100 ∨ (10 : ℚ) ^ 12 < v) →
        ¬(w < 1 / 100 ∨ (10 : ℚ) ^ 12 < w) →
        (match rng with
         | none => True
         | some (lo, hi) => ((lo ≤ v ∧ v ≤ hi) ↔ (lo ≤ w ∧ w ≤ hi))) →
        score_extraction v s kws rng yr = score_extraction w s kws rng yr - 3 / 2)
      ∧ ∀ (s : String) (kws : List String) (rng : Option (ℚ × ℚ)) (yr : Option ℤ),
          (match rng with
           | none => True
           | some (lo, hi) => lo ≤ 1000 ∧ 1000 ≤ hi) →
          score_extraction ((10 : ℚ) ^ 13) s kws rng yr
            < score_extraction 1000 s kws rng yr := by
  constructor
  · intro s kws rng yr v w hv hw hrng
    unfold score_extraction
    rcases rng with _ | ⟨lo, hi⟩
    · simp only [if_pos hv, if_neg hw]
      ring
    · simp only at hrng
      by_cases hmem : lo ≤ w ∧ w ≤ hi
      · simp only [if_pos hv, if_neg hw, if_pos hmem, if_pos (hrng.mpr hmem)]
        ring
      · simp only [if_pos hv, if_neg hw, if_neg hmem, if_neg (fun h => hmem (hrng.mp h))]
        ring
  · intro s kws rng yr hrng
    have h13 : ((10 : ℚ) ^ 13 < 1 / 100 ∨ (10 : ℚ) ^ 12 < (10 : ℚ) ^ 13) := by
      right; norm_num
    have h1000 : ¬((1000 : ℚ) < 1 / 100 ∨ (10 : ℚ) ^ 12 < 1000) := by
      norm_num
    unfold score_extraction
    rcases rng with _ | ⟨lo, hi⟩
    · simp only [if_pos h13, if_neg h1000]
      linarith
    · simp only at hrng
      simp only [if_pos h13, if_neg h1000, if_pos hrng]
      by_cases hmem : lo ≤ (10 : ℚ) ^ 13 ∧ (10 : ℚ) ^ 13 ≤ hi
      · simp only [if_pos hmem]; linarith
      · simp only [if_neg hmem]; linarith

/-- C4 witness: the amended theorem applied at the concrete pair
`(-1000, 1000)` with no expected range, and at the concrete comparison of
`1e13` against `1000`. -/
theorem C4_witness :
    ((-1000 : ℚ) < 1 / 100 ∨ (10 : ℚ) ^ 12 < -1000)
      ∧ ¬((1000 : ℚ) < 1 / 100 ∨ (10 : ℚ) ^ 12 < 1000)
      ∧ score_extraction (-1000) "x" [] none none
          = score_extraction 1000 "x" [] none none - 3 / 2
      ∧ score_extraction ((10 : ℚ) ^ 13) "x" [] none none
          < score_extraction 1000 "x" [] none none :=
  ⟨by norm_num, by norm_num,
    C4_magnitude_penalty_amended.1 "x" [] none none (-1000) 1000 (by norm_num) (by norm_num)
      trivial,
    C4_magnitude_penalty_amended.2 "x" [] none none trivial⟩

/-- C6 counterexample: the URL pattern requires a delimiter (or the string
start) immediately before the year and a delimiter (or end) after it, so
a year adjacent to letters, as in `bilancio2023.pdf`, is NOT found — the
claim asserts it is still found. -/
theorem C6_counterexample :
    detect_year_from_url "bilancio2023.pdf" = none
      ∧ detect_year_from_url "https://example.com/bilancio2023.pdf" = none := by
  exact ⟨by decide, by decide⟩

/-- C6 (amended): `detect_year_from_url` collects the year tokens found by
a left-to-right scan of the regex `(?:^|[/_\-\s])(19\d\d|20\d\d)(?:[/_\-\s.]|$)`
(so a token must be delimiter-bounded, not merely not-a-substring of a
longer number: years adjacent to letters are not found, and the trailing
delimiter is consumed by the match), filters them to [1990, 2030], and
returns the maximum of the surviving tokens, or none if none survive.
A URL with `2020` and `2021` as separately delimited tokens yields
2021. -/
theorem C6_detect_year_from_url_amended :
    (∀ (url : String) (y : ℕ), detect_year_from_url url = some y →
        y ∈ urlScan (url.toList.length + 1) true url.toList
          ∧ (MIN_VALID_YEAR ≤ y ∧ y ≤ MAX_VALID_YEAR)
          ∧ ∀ z ∈ urlScan (url.toList.length + 1) true url.toList,
              MIN_VALID_YEAR ≤ z → z ≤ MAX_VALID_YEAR → z ≤ y)
      ∧ (∀ url : String, detect_year_from_url url = none ↔
          ∀ z ∈ urlScan (url.toList.length + 1) true url.toList,
            ¬(MIN_VALID_YEAR ≤ z ∧ z ≤ MAX_VALID_YEAR))
      ∧ detect_year_from_url "https://example.com/a_2020_b_2021.pdf" = some 2021
      ∧ detect_year_from_url "https://example.com/documenti/2024/bilancio.pdf" = some 2024 := by
  refine ⟨?_, ?_, by decide, by decide⟩
  · intro url y h
    unfold detect_year_from_url at h
    obtain ⟨hmem, hmax⟩ := natMax?_spec _ _ h
    obtain ⟨hin, hp⟩ := List.mem_filter.mp hmem
    have hb := of_decide_eq_true hp
    refine ⟨hin, hb, ?_⟩
    intro z hz hz1 hz2
    exact hmax z (List.mem_filter.mpr ⟨hz, decide_eq_true ⟨hz1, hz2⟩⟩)
  · intro url
    unfold detect_year_from_url
    rw [List.max?_eq_none_iff, List.filter_eq_nil_iff]
    constructor
    · intro h z hz hb
      exact h z hz (decide_eq_true hb)
    · intro h z hz hp
      exact h z hz (of_decide_eq_true hp)

/-- C6 witness: the amended theorem applied to the concrete URL
`x_2020_y_2021`, whose detector output `some 2021` is discharged by
evaluation. -/
theorem C6_witness :
    2021 ∈ urlScan ("x_2020_y_2021".toList.length + 1) true "x_2020_y_2021".toList
      ∧ (MIN_VALID_YEAR ≤ 2021 ∧ 2021 ≤ MAX_VALID_YEAR) :=
  ⟨(C6_detect_year_from_url_amended.1 "x_2020_y_2021" 2021 (by decide)).1,
    (C6_detect_year_from_url_amended.1 "x_2020_y_2021" 2021 (by decide)).2.1⟩

/-- C7: every non-null result of year detection — from the URL stage, the
filename stage, the content-text stage, or the comprehensive cascade —
lies in [1990, 2030]; a URL/filename pair whose only 4-digit token is
1850 (with no content text) yields none. -/
theorem C7_year_bounds :
    (∀ (url filename : String) (contentText : Option String) (y : ℕ),
        detect_year_comprehensive url filename contentText = some y →
        MIN_VALID_YEAR ≤ y ∧ y ≤ MAX_VALID_YEAR)
      ∧ (∀ (url : String) (y : ℕ), detect_year_from_url url = some y →
          MIN_VALID_YEAR ≤ y ∧ y ≤ MAX_VALID_YEAR)
      ∧ (∀ (t : String) (y : ℕ), detect_year_from_text t = some y →
          MIN_VALID_YEAR ≤ y ∧ y ≤ MAX_VALID_YEAR)
      ∧ detect_year_comprehensive "https://example.com/storia_1850.pdf" "storia_1850.pdf" none
          = none := by
  have hurl : ∀ (url : String) (y : ℕ), detect_year_from_url url = some y →
      MIN_VALID_YEAR ≤ y ∧ y ≤ MAX_VALID_YEAR := by
    intro url y h
    unfold detect_year_from_url at h
    obtain ⟨hmem, _⟩ := natMax?_spec _ _ h
    exact of_decide_eq_true (List.mem_filter.mp hmem).2
  have htext : ∀ (t : String) (y : ℕ), detect_year_from_text t = some y →
      MIN_VALID_YEAR ≤ y ∧ y ≤ MAX_VALID_YEAR := by
    intro t y h
    unfold detect_year_from_text at h
    have hmem := bestYear_mem _ _ h
    exact of_decide_eq_true (List.mem_filter.mp hmem).2
  refine ⟨?_, hurl, htext, by decide⟩
  intro url filename contentText y h
  unfold detect_year_comprehensive at h
  by_cases h1 : pyTruthy (detect_year_from_url url)
  · rw [if_pos h1] at h
    exact hurl url y h
  · rw [if_neg h1] at h
    by_cases h2 : pyTruthy (detect_year_from_filename filename)
    · rw [if_pos h2] at h
      exact hurl filename y h
    · rw [if_neg h2] at h
      rcases contentText with _ | t
      · cases h
      · simp only at h
        by_cases h3 : t ≠ ""
        · rw [if_pos h3] at h
          by_cases h4 : pyTruthy (detect_year_from_text t)
          · rw [if_pos h4] at h
            exact htext t y h
          · rw [if_neg h4] at h
            cases h
        · rw [if_neg h3] at h
          cases h

/-- C7 witness: the comprehensive detector evaluated on a URL carrying the
delimited token 2023 returns `some 2023`, and the theorem instantiates to
its bounds. -/
theorem C7_witness : MIN_VALID_YEAR ≤ 2023 ∧ 2023 ≤ MAX_VALID_YEAR :=
  C7_year_bounds.1 "https://example.com/bilancio_2023.pdf" "bilancio_2023.pdf" none 2023
    (by decide)

/-- C8: `extract_text` returns the primary engine's output exactly when
that output is non-empty after trimming and the primary engine did not
raise; on empty primary output or a primary-engine error it returns the
secondary engine's output unconditionally (even empty); and it errors
exactly when a fallback was needed and the secondary engine also raised.
The per-page variant follows the same contract with "some page has
non-whitespace text" as the primary acceptance test. -/
theorem C8_extract_text_fallback :
    (∀ (primary fallback : Except Unit (String × ℕ)) (t : String) (p : ℕ),
        primary = .ok (t, p) → pyStrip t.toList ≠ [] →
        extract_text primary fallback = .ok (t, p, "pymupdf"))
      ∧ (∀ (primary fallback : Except Unit (String × ℕ)),
          (primary = .error () ∨ ∃ t p, primary = .ok (t, p) ∧ pyStrip t.toList = []) →
          extract_text primary fallback = secondaryWhole fallback)
      ∧ (∀ (fallback : Except Unit (String × ℕ)) (t : String) (p : ℕ),
          fallback = .ok (t, p) → secondaryWhole fallback = .ok (t, p, "pdfplumber"))
      ∧ (∀ (primary fallback : Except Unit (String × ℕ)),
          (∃ e, extract_text primary fallback = .error e) ↔
            ((primary = .error () ∨ ∃ t p, primary = .ok (t, p) ∧ pyStrip t.toList = [])
              ∧ fallback = .error ()))
      ∧ (∀ (primary fallback : Except Unit (List String × ℕ)) (ts : List String) (p : ℕ),
          primary = .ok (ts, p) → (∃ t ∈ ts, pyStrip t.toList ≠ []) →
          extract_text_per_page primary fallback = .ok (ts, p, "pymupdf"))
      ∧ (∀ (primary fallback : Except Unit (List String × ℕ)),
          (primary = .error ()
              ∨ ∃ ts p, primary = .ok (ts, p) ∧ ∀ t ∈ ts, pyStrip t.toList = []) →
          extract_text_per_page primary fallback = secondaryPages fallback)
      ∧ ∀ (primary fallback : Except Unit (List String × ℕ)),
          (∃ e, extract_text_per_page primary fallback = .error e) ↔
            ((primary = .error ()
                ∨ ∃ ts p, primary = .ok (ts, p) ∧ ∀ t ∈ ts, pyStrip t.toList = [])
              ∧ fallback = .error ()) := by
  have hanyPages : ∀ (ts : List String),
      (ts.any (fun t => !(pyStrip t.toList).isEmpty) = true) ↔
        ∃ t ∈ ts, pyStrip t.toList ≠ [] := by
    intro ts
    simp [List.any_eq_true, List.isEmpty_iff, String.toList]
  refine ⟨?_, ?_, ?_, ?_, ?_, ?_, ?_⟩
  · rintro primary fallback t p rfl hne
    simp only [extract_text, if_pos hne]
  · rintro primary fallback (rfl | ⟨t, p, rfl, hnil⟩)
    · rfl
    · simp only [extract_text, hnil, ne_eq, not_true_eq_false, if_false]
  · rintro fallback t p rfl
    rfl
  · intro primary fallback
    constructor
    · rintro ⟨e, he⟩
      rcases primary with _ | ⟨t, p⟩
      · rcases fallback with _ | ⟨t2, p2⟩
        · exact ⟨Or.inl rfl, rfl⟩
        · simp [extract_text, secondaryWhole] at he
      · simp only [extract_text] at he
        by_cases hne : pyStrip t.toList ≠ []
        · rw [if_pos hne] at he
          cases he
        · rw [if_neg hne] at he
          rcases fallback with _ | ⟨t2, p2⟩
          · exact ⟨Or.inr ⟨t, p, rfl, not_not.mp hne⟩, rfl⟩
          · simp [secondaryWhole] at he
    · rintro ⟨hprim, rfl⟩
      rcases hprim with rfl | ⟨t, p, rfl, hnil⟩
      · exact ⟨(), rfl⟩
      · exact ⟨(), by simp only [extract_text, hnil, ne_eq, not_true_eq_false, if_false,
          secondaryWhole]⟩
  · rintro primary fallback ts p rfl hex
    simp only [extract_text_per_page, if_pos ((hanyPages ts).mpr hex)]
  · rintro primary fallback (rfl | ⟨ts, p, rfl, hall⟩)
    · rfl
    · have : ¬(ts.any (fun t => !(pyStrip t.toList).isEmpty) = true) := by
        rw [hanyPages]
        rintro ⟨t, ht, hne⟩
        exact hne (hall t ht)
      simp only [extract_text_per_page, if_neg this]
  · intro primary fallback
    constructor
    · rintro ⟨e, he⟩
      rcases primary with _ | ⟨ts, p⟩
      · rcases fallback with _ | ⟨ts2, p2⟩
        · exact ⟨Or.inl rfl, rfl⟩
        · simp [extract_text_per_page, secondaryPages] at he
      · simp only [extract_text_per_page] at he
        by_cases hany : ts.any (fun t => !(pyStrip t.toList).isEmpty) = true
        · rw [if_pos hany] at he
          cases he
        · rw [if_neg hany] at he
          rcases fallback with _ | ⟨ts2, p2⟩
          · refine ⟨Or.inr ⟨ts, p, rfl, ?_⟩, rfl⟩
            intro t ht
            by_contra hne
            exact hany ((hanyPages ts).mpr ⟨t, ht, hne⟩)
          · simp [secondaryPages] at he
    · rintro ⟨hprim, rfl⟩
      rcases hprim with rfl | ⟨ts, p, rfl, hall⟩
      · exact ⟨(), rfl⟩
      · have : ¬(ts.any (fun t => !(pyStrip t.toList).isEmpty) = true) := by
          rw [hanyPages]
          rintro ⟨t, ht, hne⟩
          exact hne (hall t ht)
        exact ⟨(), by simp only [extract_text_per_page, if_neg this, secondaryPages]⟩

/-- C8 witness: the contract applied to concrete engine outcomes — a
non-empty primary result is kept, a whitespace-only primary result defers
to an (empty) pdfplumber result, and a whitespace-only page list with a
raising fallback is the error case. -/
theorem C8_witness :
    extract_text (.ok ("testo", 3)) (.error ()) = .ok ("testo", 3, "pymupdf")
      ∧ extract_text (.ok ("  ", 3)) (.ok ("", 0)) = secondaryWhole (.ok ("", 0))
      ∧ secondaryWhole (.ok ("", 0)) = .ok ("", 0, "pdfplumber")
      ∧ (∃ e, extract_text_per_page (.ok (["", " "], 2)) (.error ()) = .error e) :=
  ⟨C8_extract_text_fallback.1 (.ok ("testo", 3)) (.error ()) "testo" 3 rfl (by decide),
    C8_extract_text_fallback.2.1 (.ok ("  ", 3)) (.ok ("", 0))
      (Or.inr ⟨"  ", 3, rfl, by decide⟩),
    C8_extract_text_fallback.2.2.1 (.ok ("", 0)) "" 0 rfl,
    (C8_extract_text_fallback.2.2.2.2.2.2 (.ok (["", " "], 2)) (.error ())).mpr
      ⟨Or.inr ⟨["", " "], 2, rfl, by decide⟩, rfl⟩⟩

/-- The descending result sort is sorted non-increasingly by score. -/
theorem sortByScoreDesc_sorted (l : List ScoredChunk) :
    List.Pairwise (fun a b => b.score ≤ a.score) (sortByScoreDesc l) :=
  List.sorted_insertionSort scoreGe l

/-- The descending result sort is a permutation of its input. -/
theorem sortByScoreDesc_perm (l : List ScoredChunk) :
    (sortByScoreDesc l).Perm l :=
  List.perm_insertionSort scoreGe l

/-- Every element of a `search` result is drawn from the positional
chunk/score pairing and satisfies the year filter; the result is sorted
and truncated.  Core facts about `BM25Index.search` shared by C5 and
C1. -/
theorem BM25Index.search_facts (getScores : List (List String) → List String → List ℚ)
    (index : BM25Index) (query : String) (top_k : ℕ) (year_filter : Option ℤ) :
    List.Pairwise (fun a b => b.score ≤ a.score)
        (index.search getScores query top_k year_filter)
      ∧ (index.search getScores query top_k year_filter).length ≤ top_k
      ∧ ∀ (y : ℤ) (r : ScoredChunk), year_filter = some y →
          r ∈ index.search getScores query top_k year_filter → r.chunk.year = some y := by
  unfold BM25Index.search
  rcases index.bm25 with _ | corpus
  · exact ⟨List.Pairwise.nil, Nat.zero_le _, fun y r h hr => absurd hr (List.not_mem_nil r)⟩
  · simp only
    refine ⟨?_, ?_, ?_⟩
    · exact ((sortByScoreDesc_sorted _).sublist (List.take_sublist _ _))
    · rw [List.length_take]
      exact min_le_left _ _
    · intro y r hy hr
      subst hy
      have hr2 : r ∈ sortByScoreDesc _ := (List.take_sublist _ _).subset hr
      have hr3 := (sortByScoreDesc_perm _).mem_iff.mp hr2
      obtain ⟨p, hp, rfl⟩ := List.mem_map.mp hr3
      have := (List.mem_filter.mp hp).2
      simp only at this
      exact beq_iff_eq.mp this

/-- C5: for every scoring model, index state, query, `top_k`, year filter
and `min_score`, `Retriever.retrieve` (i.e. `search` plus the min-score
filter) returns a list sorted non-increasingly by score, of length at
most `top_k`, and when a year filter is given every returned chunk
carries exactly that year. -/
theorem C5_search_contract :
    ∀ (getScores : List (List String) → List String → List ℚ) (index : BM25Index)
      (query : String) (top_k : ℕ) (year : Option ℤ) (min_score : ℚ),
      List.Pairwise (fun a b => b.score ≤ a.score)
          (Retriever.retrieve getScores index query top_k year min_score)
        ∧ (Retriever.retrieve getScores index query top_k year min_score).length ≤ top_k
        ∧ ∀ (y : ℤ) (r : ScoredChunk), year = some y →
            r ∈ Retriever.retrieve getScores index query top_k year min_score →
            r.chunk.year = some y := by
  intro getScores index query top_k year min_score
  obtain ⟨hsort, hlen, hyear⟩ := BM25Index.search_facts getScores index query top_k year
  unfold Retriever.retrieve
  by_cases hms : (0 : ℚ) < min_score
  · rw [if_pos hms]
    refine ⟨hsort.sublist (List.filter_sublist _), ?_, ?_⟩
    · exact le_trans (List.length_filter_le _ _) hlen
    · intro y r hy hr
      exact hyear y r hy ((List.filter_sublist _).subset hr)
  · rw [if_neg hms]
    exact ⟨hsort, hlen, hyear⟩

/-- Concrete single-chunk corpus used to instantiate the retrieval
theorems. -/
def sampleChunk : Chunk :=
  ⟨"h1", some 2, some 2023, "http://a", "a.pdf", "testo"⟩

/-- Concrete index over `sampleChunk`. -/
def sampleIndex : BM25Index :=
  ⟨some [["testo"]], [sampleChunk], [["testo"]]⟩

/-- Concrete scoring model: the first query scores the chunk 2, every
other query scores it 9. -/
def sampleScores (_corpus : List (List String)) (q : List String) : List ℚ :=
  if q = simple_tokenize "q1" then [2] else [9]

/-- C5 witness: the contract instantiated on the concrete index with the
year filter 2023; the concrete membership hypothesis is discharged by
evaluation. -/
theorem C5_witness :
    (⟨sampleChunk, 9⟩ : ScoredChunk).chunk.year = some 2023 :=
  (C5_search_contract sampleScores sampleIndex "q2" 8 (some 2023) 0).2.2 2023
    ⟨sampleChunk, 9⟩ rfl (by decide)

/-- Keys of the merge dictionary after one update: unchanged if the key
was present, extended by the new key otherwise. -/
theorem dictUpsert_map_key (m : List ScoredChunk) (r : ScoredChunk) :
    (dictUpsert m r).map chunkKey
      = if chunkKey r ∈ m.map chunkKey then m.map chunkKey
        else m.map chunkKey ++ [chunkKey r] := by
  induction m with
  | nil => simp [dictUpsert]
  | cons x xs ih =>
    by_cases hk : chunkKey x = chunkKey r
    · by_cases hs : x.score < r.score
      · simp [dictUpsert, hk, hs]
      · simp [dictUpsert, hk, hs]
    · by_cases hmem : chunkKey r ∈ xs.map chunkKey
      · simp [dictUpsert, hk, hmem, ih, Ne.symm hk]
      · simp [dictUpsert, hk, hmem, ih, Ne.symm hk]

/-- Every entry of the updated merge dictionary is an old entry or the
inserted result. -/
theorem dictUpsert_mem (m : List ScoredChunk) (r x : ScoredChunk)
    (hx : x ∈ dictUpsert m r) : x ∈ m ∨ x = r := by
  induction m with
  | nil =>
    simp only [dictUpsert, List.mem_singleton] at hx
    exact Or.inr hx
  | cons h t ih =>
    simp only [dictUpsert] at hx
    by_cases hk : chunkKey h = chunkKey r
    · rw [if_pos hk] at hx
      rcases List.mem_cons.mp hx with hx1 | hx2
      · by_cases hs : h.score < r.score
        · rw [if_pos hs] at hx1; exact Or.inr hx1
        · rw [if_neg hs] at hx1; exact Or.inl (hx1 ▸ List.mem_cons_self _ _)
      · exact Or.inl (List.mem_cons_of_mem _ hx2)
    · rw [if_neg hk] at hx
      rcases List.mem_cons.mp hx with hx1 | hx2
      · exact Or.inl (hx1 ▸ List.mem_cons_self _ _)
      · rcases ih hx2 with h1 | h2
        · exact Or.inl (List.mem_cons_of_mem _ h1)
        · exact Or.inr h2

/-- The old keys survive a merge-dictionary update. -/
theorem dictUpsert_key_superset (m : List ScoredChunk) (r : ScoredChunk) :
    m.map chunkKey ⊆ (dictUpsert m r).map chunkKey := by
  rw [dictUpsert_map_key]
  by_cases hmem : chunkKey r ∈ m.map chunkKey
  · rw [if_pos hmem]
    exact List.Subset.refl _
  · rw [if_neg hmem]
    exact fun k hk => List.mem_append_left _ hk

/-- The inserted key is present after a merge-dictionary update. -/
theorem dictUpsert_key_self (m : List ScoredChunk) (r : ScoredChunk) :
    chunkKey r ∈ (dictUpsert m r).map chunkKey := by
  rw [dictUpsert_map_key]
  by_cases hmem : chunkKey r ∈ m.map chunkKey
  · rwa [if_pos hmem]
  · rw [if_neg hmem]
    exact List.mem_append_right _ (List.mem_singleton.mpr rfl)

/-- Key distinctness is preserved by a merge-dictionary update. -/
theorem dictUpsert_nodup (m : List ScoredChunk) (r : ScoredChunk)
    (hnd : (m.map chunkKey).Nodup) : ((dictUpsert m r).map chunkKey).Nodup := by
  rw [dictUpsert_map_key]
  by_cases hmem : chunkKey r ∈ m.map chunkKey
  · rwa [if_pos hmem]
  · rw [if_neg hmem]
    rw [List.nodup_append]
    exact ⟨hnd, List.nodup_singleton _, by
      intro k hk hk2
      rw [List.mem_singleton] at hk2
      exact hmem (hk2 ▸ hk)⟩

/-- After a merge-dictionary update, each entry's score dominates every
same-key entry it shadows: all same-key entries of the old dictionary,
and the inserted result itself when the key matches. -/
theorem dictUpsert_dominates (m : List ScoredChunk) (r x : ScoredChunk)
    (hnd : (m.map chunkKey).Nodup) (hx : x ∈ dictUpsert m r) :
    (∀ y ∈ m, chunkKey y = chunkKey x → y.score ≤ x.score)
      ∧ (chunkKey r = chunkKey x → r.score ≤ x.score) := by
  induction m with
  | nil =>
    simp only [dictUpsert, List.mem_singleton] at hx
    subst hx
    exact ⟨fun y hy => absurd hy (List.not_mem_nil y), fun _ => le_rfl⟩
  | cons h t ih =>
    have hnd1 : chunkKey h ∉ t.map chunkKey := (List.nodup_cons.mp (by simpa using hnd)).1
    have hnd2 : (t.map chunkKey).Nodup := (List.nodup_cons.mp (by simpa using hnd)).2
    simp only [dictUpsert] at hx
    by_cases hk : chunkKey h = chunkKey r
    · rw [if_pos hk] at hx
      rcases List.mem_cons.mp hx with hx1 | hx2
      · have hkey : chunkKey x = chunkKey h := by
          by_cases hs : h.score < r.score
          · rw [if_pos hs] at hx1; rw [hx1, ← hk]
          · rw [if_neg hs] at hx1; rw [hx1]
        constructor
        · intro y hy hky
          rcases List.mem_cons.mp hy with hy1 | hyt
          · subst hy1
            by_cases hs : y.score < r.score
            · rw [if_pos hs] at hx1; rw [hx1]; exact le_of_lt hs
            · rw [if_neg hs] at hx1; rw [hx1]
          · exact absurd (List.mem_map_of_mem chunkKey hyt)
              (by rw [hky, hkey]; exact hnd1)
        · intro _
          by_cases hs : h.score < r.score
          · rw [if_pos hs] at hx1; rw [hx1]
          · rw [if_neg hs] at hx1; rw [hx1]; exact le_of_not_lt hs
      · have hkx : chunkKey x ∈ t.map chunkKey := List.mem_map_of_mem chunkKey hx2
        constructor
        · intro y hy hky
          rcases List.mem_cons.mp hy with hy1 | hyt
          · subst hy1
            exact absurd hkx (by rw [← hky]; exact hnd1)
          · have := List.inj_on_of_nodup_map hnd2 hyt hx2 hky
            rw [this]
        · intro hkr
          exact absurd hkx (by rw [← hkr, ← hk]; exact hnd1)
    · rw [if_neg hk] at hx
      rcases List.mem_cons.mp hx with hx1 | hx2
      · subst hx1
        constructor
        · intro y hy hky
          rcases List.mem_cons.mp hy with hy1 | hyt
          · subst hy1; exact le_rfl
          · exact absurd (List.mem_map_of_mem chunkKey hyt) (hky ▸ hnd1)
        · intro hkr
          exact absurd hkr.symm hk
      · have hxk : chunkKey x ∈ t.map chunkKey ∨ chunkKey x = chunkKey r := by
          rcases dictUpsert_mem t r x hx2 with hm | rfl
          · exact Or.inl (List.mem_map_of_mem chunkKey hm)
          · exact Or.inr rfl
        have hkxh : chunkKey x ≠ chunkKey h := by
          intro he
          rcases hxk with hm | hr
          · exact hnd1 (he ▸ hm)
          · exact hk (he ▸ hr.symm).symm
        obtain ⟨IH1, IH2⟩ := ih hnd2 hx2
        constructor
        · intro y hy hky
          rcases List.mem_cons.mp hy with hy1 | hyt
          · subst hy1
            exact absurd hky (fun he => hkxh he.symm)
          · exact IH1 y hyt hky
        · exact IH2

/-- Invariant of the multi-query merge loop: folding search results
`rs` into a merge dictionary `m` whose entries all stem from the already
processed results `done`, cover their keys, and dominate their scores,
yields a dictionary with the same properties for `done ++ rs`. -/
theorem foldl_dictUpsert_facts :
    ∀ (rs done m : List ScoredChunk),
      (m.map chunkKey).Nodup →
      (∀ x ∈ m, x ∈ done) →
      (∀ s ∈ done, ∃ x ∈ m, chunkKey x = chunkKey s) →
      (∀ s ∈ done, ∀ x ∈ m, chunkKey s = chunkKey x → s.score ≤ x.score) →
      (((rs.foldl dictUpsert m).map chunkKey).Nodup
        ∧ (∀ x ∈ rs.foldl dictUpsert m, x ∈ done ++ rs)
        ∧ (∀ s ∈ done ++ rs, ∃ x ∈ rs.foldl dictUpsert m, chunkKey x = chunkKey s)
        ∧ ∀ s ∈ done ++ rs, ∀ x ∈ rs.foldl dictUpsert m,
            chunkKey s = chunkKey x → s.score ≤ x.score)
  | [], done, m, hnd, hmem, hcov, hdom => by
    simpa using ⟨hnd, hmem, hcov, hdom⟩
  | r :: rs, done, m, hnd, hmem, hcov, hdom => by
    have s1 : ((dictUpsert m r).map chunkKey).Nodup := dictUpsert_nodup m r hnd
    have s2 : ∀ x ∈ dictUpsert m r, x ∈ done ++ [r] := by
      intro x hx
      rcases dictUpsert_mem m r x hx with h1 | rfl
      · exact List.mem_append_left _ (hmem x h1)
      · exact List.mem_append_right _ (List.mem_singleton.mpr rfl)
    have s3 : ∀ s ∈ done ++ [r], ∃ x ∈ dictUpsert m r, chunkKey x = chunkKey s := by
      intro s hs
      rcases List.mem_append.mp hs with hs1 | hs2
      · obtain ⟨y, hy, hky⟩ := hcov s hs1
        have : chunkKey y ∈ (dictUpsert m r).map chunkKey :=
          dictUpsert_key_superset m r (List.mem_map_of_mem chunkKey hy)
        obtain ⟨x, hx, hkx⟩ := List.mem_map.mp this
        exact ⟨x, hx, hkx.trans hky⟩
      · rw [List.mem_singleton] at hs2
        subst hs2
        obtain ⟨x, hx, hkx⟩ := List.mem_map.mp (dictUpsert_key_self m s)
        exact ⟨x, hx, hkx⟩
    have s4 : ∀ s ∈ done ++ [r], ∀ x ∈ dictUpsert m r,
        chunkKey s = chunkKey x → s.score ≤ x.score := by
      intro s hs x hx hkey
      obtain ⟨hdom1, hdom2⟩ := dictUpsert_dominates m r x hnd hx
      rcases List.mem_append.mp hs with hs1 | hs2
      · rcases dictUpsert_mem m r x hx with h1 | rfl
        · exact hdom s hs1 x h1 hkey
        · obtain ⟨y, hy, hky⟩ := hcov s hs1
          exact le_trans (hdom s hs1 y hy hky.symm) (hdom1 y hy (hky.trans hkey))
      · rw [List.mem_singleton] at hs2
        subst hs2
        exact hdom2 hkey
    have IH := foldl_dictUpsert_facts rs (done ++ [r]) (dictUpsert m r) s1 s2 s3 s4
    rw [List.foldl_cons]
    have harr : done ++ r :: rs = (done ++ [r]) ++ rs := by simp
    rw [harr]
    exact IH

/-- C1: for every scoring model, index state, query list, `top_k`, year
filter and `min_score`, `retrieve_multi_query` returns each
(document hash, page number) key at most once; every returned result is
one of the per-query `retrieve` results and its score is the highest
score its key attains across all of them; and the merged list is sorted
non-increasingly by score with length at most `top_k`. -/
theorem C1_multi_query_merge :
    ∀ (getScores : List (List String) → List String → List ℚ) (index : BM25Index)
      (queries : List String) (top_k : ℕ) (year : Option ℤ) (min_score : ℚ),
      ((Retriever.retrieve_multi_query getScores index queries top_k year min_score).map
          chunkKey).Nodup
        ∧ (∀ r ∈ Retriever.retrieve_multi_query getScores index queries top_k year min_score,
            r ∈ (queries.map (fun q =>
                  Retriever.retrieve getScores index q top_k year min_score)).flatten
              ∧ ∀ s ∈ (queries.map (fun q =>
                    Retriever.retrieve getScores index q top_k year min_score)).flatten,
                  chunkKey s = chunkKey r → s.score ≤ r.score)
        ∧ List.Pairwise (fun a b => b.score ≤ a.score)
            (Retriever.retrieve_multi_query getScores index queries top_k year min_score)
        ∧ (Retriever.retrieve_multi_query getScores index queries top_k year min_score).length
            ≤ top_k := by
  intro getScores index queries top_k year min_score
  have hfold : (queries.foldl
        (fun acc query =>
          (Retriever.retrieve getScores index query top_k year min_score).foldl dictUpsert acc)
        [])
      = ((queries.map (fun q =>
          Retriever.retrieve getScores index q top_k year min_score)).flatten).foldl
          dictUpsert [] := by
    rw [List.foldl_flatten, List.foldl_map]
  obtain ⟨hnd, hmem, _, hdom⟩ := foldl_dictUpsert_facts
    ((queries.map (fun q =>
      Retriever.retrieve getScores index q top_k year min_score)).flatten) [] []
    List.nodup_nil (by intro x hx; cases hx) (by intro s hs; cases hs)
    (by intro s hs; cases hs)
  rw [List.nil_append] at hmem hdom
  unfold Retriever.retrieve_multi_query
  rw [hfold]
  have hperm := sortByScoreDesc_perm
    (((queries.map (fun q =>
      Retriever.retrieve getScores index q top_k year min_score)).flatten).foldl dictUpsert [])
  refine ⟨?_, ?_, ?_, ?_⟩
  · exact ((hperm.map chunkKey).nodup_iff.mpr hnd).sublist
      ((List.take_sublist _ _).map chunkKey)
  · intro r hr
    have hrM : r ∈ _ := hperm.mem_iff.mp ((List.take_sublist _ _).subset hr)
    exact ⟨hmem r hrM, fun s hs hks => hdom s hs r hrM hks⟩
  · exact (sortByScoreDesc_sorted _).sublist (List.take_sublist _ _)
  · rw [List.length_take]
    exact min_le_left _ _

/-- C1 witness: two queries both matching the sample chunk, with scores 2
and 9: the merged result contains the chunk exactly once with the higher
score 9, and the theorem's max-score conclusion instantiates to the
concrete pair. -/
theorem C1_witness :
    (⟨sampleChunk, 2⟩ : ScoredChunk).score ≤ (⟨sampleChunk, 9⟩ : ScoredChunk).score
      ∧ Retriever.retrieve_multi_query sampleScores sampleIndex ["q1", "q2"] 8 none 0
          = [⟨sampleChunk, 9⟩] :=
  ⟨((C1_multi_query_merge sampleScores sampleIndex ["q1", "q2"] 8 none 0).2.1
      ⟨sampleChunk, 9⟩ (by decide)).2 ⟨sampleChunk, 2⟩ (by decide) rfl,
    by decide⟩

/-- C9: in every index state reachable from a fresh index through
`build_index`, `add_chunks`, `save` and (successful or failed) `load`,
the tokenized corpus is positionally the tokenization of the chunk list —
same length, aligned by index — and every saved artifact triple satisfies
the same alignment, so scoring by array index never pairs a score with
the wrong chunk. -/
theorem C9_index_alignment :
    ∀ ops : List IndexOp,
      indexAligned (runIndexOps ops).1
        ∧ ∀ t, (runIndexOps ops).2.files = some t → t.2.2 = t.2.1.map chunkTokens := by
  suffices H : ∀ (ops : List IndexOp) (st : BM25Index) (d : IndexDisk),
      indexAligned st → (∀ t, d.files = some t → t.2.2 = t.2.1.map chunkTokens) →
      indexAligned (ops.foldl indexStep (st, d)).1
        ∧ ∀ t, (ops.foldl indexStep (st, d)).2.files = some t →
            t.2.2 = t.2.1.map chunkTokens by
    intro ops
    exact H ops ⟨none, [], []⟩ ⟨none⟩ rfl (fun t ht => by cases ht)
  intro ops
  induction ops with
  | nil =>
    intro st d h1 h2
    exact ⟨h1, h2⟩
  | cons op rest ih =>
    intro st d h1 h2
    rw [List.foldl_cons]
    have hstep : indexAligned (indexStep (st, d) op).1
        ∧ ∀ t, (indexStep (st, d) op).2.files = some t → t.2.2 = t.2.1.map chunkTokens := by
      cases op with
      | build cs => exact ⟨rfl, h2⟩
      | add cs =>
        refine ⟨?_, h2⟩
        simp only [indexStep, BM25Index.add_chunks]
        rcases hb : st.bm25 with _ | corpus
        · exact rfl
        · simp only [indexAligned]
          rw [List.map_append, h1]
      | save =>
        refine ⟨h1, ?_⟩
        intro t ht
        simp only [indexStep, BM25Index.save] at ht
        injection ht with ht2
        rw [← ht2]
        exact h1
      | load =>
        rcases hf : d.files with _ | trip
        · have : indexStep (st, d) .load = (st, d) := by
            simp [indexStep, BM25Index.load, hf]
          rw [this]
          exact ⟨h1, h2⟩
        · obtain ⟨b, cs, corp⟩ := trip
          have : indexStep (st, d) .load = (⟨b, cs, corp⟩, d) := by
            simp [indexStep, BM25Index.load, hf]
          rw [this]
          exact ⟨h2 (b, cs, corp) hf, h2⟩
    obtain ⟨g1, g2⟩ := hstep
    exact ih (indexStep (st, d) op).1 (indexStep (st, d) op).2 g1 g2

/-- C9 witness: the invariant instantiated on the concrete run
`build [sampleChunk]; save`, with the saved artifact triple's alignment
hypothesis discharged by evaluation. -/
theorem C9_witness :
    indexAligned (runIndexOps [.build [sampleChunk], .save]).1
      ∧ (some [chunkTokens sampleChunk], [sampleChunk],
            [chunkTokens sampleChunk]).2.2
          = ((some [chunkTokens sampleChunk], [sampleChunk],
            [chunkTokens sampleChunk]).2.1).map chunkTokens :=
  ⟨(C9_index_alignment [.build [sampleChunk], .save]).1,
    (C9_index_alignment [.build [sampleChunk], .save]).2
      (some [chunkTokens sampleChunk], [sampleChunk], [chunkTokens sampleChunk])
      (by decide)⟩

/-- The breadth-first phase on an empty queue returns immediately. -/
theorem bfs_crawl_nil (env : CrawlEnv) (max_pages max_pdfs : ℕ) (fuel : ℕ)
    (st : CrawlState) (fetched : List String) :
    Crawler.bfs_crawl env max_pages max_pdfs fuel st [] fetched = (st, fetched) := by
  cases fuel <;> rfl

/-- Every URL fetched by the breadth-first phase was either already in
the accumulated fetch list or was unvisited when the phase held this
state. -/
theorem bfs_crawl_fetched_sources (env : CrawlEnv) (max_pages max_pdfs : ℕ) :
    ∀ (fuel : ℕ) (st : CrawlState) (q fetched : List String) (u : String),
      u ∈ (Crawler.bfs_crawl env max_pages max_pdfs fuel st q fetched).2 →
      u ∈ fetched ∨ u ∉ st.visited := by
  intro fuel
  induction fuel with
  | zero =>
    intro st q fetched u hu
    exact Or.inl hu
  | succ n ih =>
    intro st q fetched u hu
    match q with
    | [] => exact Or.inl hu
    | url :: rest =>
      rw [Crawler.bfs_crawl] at hu
      have hgrow : ∀ (st2 : CrawlState) (q2 f2 : List String),
          st.visited ⊆ st2.visited → (u ∈ f2 → u ∈ fetched ∨ u ∉ st.visited) →
          u ∈ (Crawler.bfs_crawl env max_pages max_pdfs n st2 q2 f2).2 →
          u ∈ fetched ∨ u ∉ st.visited := by
        intro st2 q2 f2 hsub hf2 hrec
        rcases ih st2 q2 f2 u hrec with h | h
        · exact hf2 h
        · exact Or.inr (fun hv => h (hsub hv))
      have hnewf : url ∉ st.visited → u ∈ fetched ++ [url] → u ∈ fetched ∨ u ∉ st.visited := by
        intro hvis hf
        rcases List.mem_append.mp hf with h | h
        · exact Or.inl h
        · rw [List.mem_singleton] at h
          exact Or.inr (h ▸ hvis)
      repeat' split at hu
      all_goals
        first
        | exact Or.inl hu
        | exact hgrow _ _ _ (fun x hx => hx) Or.inl hu
        | exact hgrow _ _ _ (fun x hx => List.mem_append_left _ hx) Or.inl hu
        | exact hgrow _ _ _ (fun x hx => hx) (hnewf (by assumption)) hu
        | exact hgrow _ _ _ (fun x hx => List.mem_append_left _ hx) (hnewf (by assumption)) hu

/-- Classification during seeding adds every classified URL to the
visited set: the PDF and HTML lists stay inside the visited set. -/
theorem seed_classified_subset_visited (env : CrawlEnv) (max_pdfs : ℕ) :
    ∀ (listed : List String) (st : CrawlState),
      (∀ u ∈ st.pdf_urls, u ∈ st.visited) →
      (∀ u ∈ st.html_urls, u ∈ st.visited) →
      (∀ u ∈ (listed.foldl (Crawler.process_url env max_pdfs) st).pdf_urls,
          u ∈ (listed.foldl (Crawler.process_url env max_pdfs) st).visited)
        ∧ ∀ u ∈ (listed.foldl (Crawler.process_url env max_pdfs) st).html_urls,
            u ∈ (listed.foldl (Crawler.process_url env max_pdfs) st).visited := by
  intro listed
  induction listed with
  | nil =>
    intro st h1 h2
    exact ⟨h1, h2⟩
  | cons url rest ih =>
    intro st h1 h2
    rw [List.foldl_cons]
    apply ih
    all_goals
      unfold Crawler.process_url
      repeat' split
      all_goals
        intro u hu
        first
        | exact h1 u hu
        | exact h2 u hu
        | · rcases List.mem_append.mp hu with h | h
            · exact List.mem_append_left _ (h1 u h)
            · exact List.mem_append_right _ h
        | exact List.mem_append_left _ (h1 u hu)
        | exact List.mem_append_left _ (h2 u hu)
        | · rcases List.mem_append.mp hu with h | h
            · exact List.mem_append_left _ (h2 u h)
            · exact List.mem_append_right _ h

/-- C10: classified sitemap URLs always land in the visited set without a
fetch, the breadth-first phase never fetches a URL already visited when
it starts, hence a page listed in a sitemap is never fetched during the
same run, and when the sitemap lists the base URL itself the
breadth-first phase fetches no pages at all. -/
theorem C10_sitemap_seeding_no_refetch :
    (∀ (env : CrawlEnv) (max_pdfs : ℕ) (listed : List String) (u : String),
        u ∈ (Crawler.seed env max_pdfs listed).pdf_urls
            ∨ u ∈ (Crawler.seed env max_pdfs listed).html_urls →
        u ∈ (Crawler.seed env max_pdfs listed).visited)
      ∧ (∀ (env : CrawlEnv) (max_pages max_pdfs fuel : ℕ) (st : CrawlState)
            (q : List String) (u : String),
          u ∈ st.visited →
          u ∉ (Crawler.bfs_crawl env max_pages max_pdfs fuel st q []).2)
      ∧ (∀ (env : CrawlEnv) (base_url : String) (max_pages max_pdfs fuel : ℕ)
            (listed : List String) (u : String),
          u ∈ (Crawler.seed env max_pdfs listed).visited →
          u ∉ (Crawler.crawl env base_url max_pages max_pdfs listed fuel).2)
      ∧ ∀ (env : CrawlEnv) (base_url : String) (max_pages max_pdfs fuel : ℕ)
            (listed : List String),
          base_url ∈ (Crawler.seed env max_pdfs listed).visited →
          (Crawler.crawl env base_url max_pages max_pdfs listed fuel).2 = [] := by
  have hbfs : ∀ (env : CrawlEnv) (max_pages max_pdfs fuel : ℕ) (st : CrawlState)
      (q : List String) (u : String),
      u ∈ st.visited → u ∉ (Crawler.bfs_crawl env max_pages max_pdfs fuel st q []).2 := by
    intro env max_pages max_pdfs fuel st q u hv hu
    rcases bfs_crawl_fetched_sources env max_pages max_pdfs fuel st q [] u hu with h | h
    · exact absurd h (List.not_mem_nil u)
    · exact h hv
  refine ⟨?_, hbfs, ?_, ?_⟩
  · intro env max_pdfs listed u hu
    obtain ⟨h1, h2⟩ := seed_classified_subset_visited env max_pdfs listed ⟨[], [], []⟩
      (fun v hv => absurd hv (List.not_mem_nil v))
      (fun v hv => absurd hv (List.not_mem_nil v))
    rcases hu with h | h
    · exact h1 u h
    · exact h2 u h
  · intro env base_url max_pages max_pdfs fuel listed u hv
    unfold Crawler.crawl
    by_cases hcap : (Crawler.seed env max_pdfs listed).pdf_urls.length < max_pdfs
        ∧ (Crawler.seed env max_pdfs listed).visited.length < max_pages
    · rw [if_pos hcap]
      exact hbfs env max_pages max_pdfs fuel _ [base_url] u hv
    · rw [if_neg hcap]
      exact List.not_mem_nil u
  · intro env base_url max_pages max_pdfs fuel listed hbase
    unfold Crawler.crawl
    by_cases hcap : (Crawler.seed env max_pdfs listed).pdf_urls.length < max_pdfs
        ∧ (Crawler.seed env max_pdfs listed).visited.length < max_pages
    · rw [if_pos hcap]
      cases fuel with
      | zero => rfl
      | succ n =>
        rw [Crawler.bfs_crawl]
        rw [if_neg (not_not_intro ⟨hcap.2, hcap.1⟩), if_pos hbase]
        rw [bfs_crawl_nil]
    · rw [if_neg hcap]

/-- C10 witness: with the sitemap listing the base URL itself, the
breadth-first phase of the concrete crawl fetches no pages; the
membership hypothesis is discharged by evaluating the seeding phase. -/
theorem C10_witness :
    (Crawler.crawl sampleCrawlEnv "http://comune.example" 10 10
        ["http://comune.example"] 5).2 = [] :=
  C10_sitemap_seeding_no_refetch.2.2.2 sampleCrawlEnv "http://comune.example" 10 10 5
    ["http://comune.example"] (by decide)

/-- Running `_download_pdf` on a URL with no catalog row runs the download
body. -/
theorem download_pdf_of_url_miss (env : StoreEnv) (base_dir comune : String)
    (st : StoreState) (url : String) (h : Catalog.pdf_exists st.db url = none) :
    PDFStore.download_pdf env base_dir comune st url
      = PDFStore.downloadFresh env base_dir comune st url := by
  unfold PDFStore.download_pdf
  rw [h]

/-- Running `_download_pdf` on a catalogued URL whose file still exists answers
`cached` with no network call. -/
theorem download_pdf_of_url_hit (env : StoreEnv) (base_dir comune : String)
    (st : StoreState) (url : String) (row : PdfRow)
    (h : Catalog.pdf_exists st.db url = some row) (hf : row.local_path ∈ st.files) :
    PDFStore.download_pdf env base_dir comune st url = (st, .cached, false) := by
  unfold PDFStore.download_pdf
  rw [h]
  exact if_pos hf

/-- The download body on an empty store performs a fresh download: one
new row, one stored file, outcome `downloaded` with a network call. -/
theorem downloadFresh_empty (env : StoreEnv) (base_dir comune url : String)
    (r : HttpResponse) (h : env.web url = some r) (hs : r.status = 200)
    (hct : strContains (pyLower r.content_type) "pdf" = true) :
    PDFStore.downloadFresh env base_dir comune ⟨⟨[]⟩, []⟩ url
      = (⟨⟨[⟨r.body, url, originalNameOf url,
            get_pdf_dir base_dir comune (env.yearDetect r.body url (originalNameOf url))
              ++ "/" ++ (r.body.toList.take 8).asString ++ "_"
              ++ sanitize_filename (originalNameOf url),
            env.yearDetect r.body url (originalNameOf url), r.content_type,
            r.body.length⟩]⟩,
          [get_pdf_dir base_dir comune (env.yearDetect r.body url (originalNameOf url))
              ++ "/" ++ (r.body.toList.take 8).asString ++ "_"
              ++ sanitize_filename (originalNameOf url)]⟩,
        .downloaded, true) := by
  unfold PDFStore.downloadFresh
  rw [h]
  simp [hs, hct, Catalog.pdf_exists_by_sha1, Catalog.add_pdf]

/-- The download body when the catalog holds exactly one row carrying the
downloaded content's hash: the temp file is removed again, and
`INSERT OR REPLACE` rewrites that row to the new URL while reusing the
stored path, year and size — outcome `deduplicated` with a network
call. -/
theorem downloadFresh_dedup (env : StoreEnv) (base_dir comune url : String)
    (r : HttpResponse) (row : PdfRow) (files : List String)
    (h : env.web url = some r) (hs : r.status = 200)
    (hct : strContains (pyLower r.content_type) "pdf" = true)
    (hsh : row.sha1 = r.body) :
    PDFStore.downloadFresh env base_dir comune ⟨⟨[row]⟩, files⟩ url
      = (⟨⟨[⟨r.body, url, originalNameOf url, row.local_path, row.detected_year,
            r.content_type, row.size_bytes⟩]⟩,
          files⟩, .deduplicated, true) := by
  unfold PDFStore.downloadFresh
  rw [h]
  have hfind : Catalog.pdf_exists_by_sha1 ⟨[row]⟩ r.body = some row := by
    unfold Catalog.pdf_exists_by_sha1
    exact List.find?_cons_of_pos _ (beq_iff_eq.mpr hsh)
  simp [hs, hct, hfind, Catalog.add_pdf, hsh]

/-- C2 (amended): storing two distinct URLs serving byte-identical PDF
content yields, after the second store, exactly one catalog record with
that content hash and one stored file, the second call returning
`Deduplicated`; but the dedup path's `INSERT OR REPLACE` rewrites the
single row's URL to the most recent one, so only the URL stored last
resolves to `Cached` without a network call — a later store on the other
URL misses the URL lookup, downloads again, and returns `Deduplicated`
(with a network call), still leaving one record and one file. -/
theorem C2_dedup_single_record_amended (env : StoreEnv) (base_dir comune url1 url2 : String)
    (r1 r2 : HttpResponse)
    (hne : url1 ≠ url2)
    (h1 : env.web url1 = some r1) (h2 : env.web url2 = some r2)
    (hs1 : r1.status = 200) (hs2 : r2.status = 200)
    (hb : r2.body = r1.body)
    (hct1 : strContains (pyLower r1.content_type) "pdf" = true)
    (hct2 : strContains (pyLower r2.content_type) "pdf" = true) :
    (PDFStore.download_pdf env base_dir comune ⟨⟨[]⟩, []⟩ url1).2.1 = StoreStatus.downloaded
      ∧ (PDFStore.download_pdf env base_dir comune (PDFStore.download_pdf env base_dir comune ⟨⟨[]⟩, []⟩ url1).1 url2).2 = (StoreStatus.deduplicated, true)
      ∧ (PDFStore.download_pdf env base_dir comune (PDFStore.download_pdf env base_dir comune ⟨⟨[]⟩, []⟩ url1).1 url2).1.db.pdfs.length = 1
      ∧ (∀ row ∈ (PDFStore.download_pdf env base_dir comune (PDFStore.download_pdf env base_dir comune ⟨⟨[]⟩, []⟩ url1).1 url2).1.db.pdfs,
          row.sha1 = r1.body ∧ row.url = url2 ∧ row.local_path ∈ (PDFStore.download_pdf env base_dir comune (PDFStore.download_pdf env base_dir comune ⟨⟨[]⟩, []⟩ url1).1 url2).1.files)
      ∧ (PDFStore.download_pdf env base_dir comune (PDFStore.download_pdf env base_dir comune ⟨⟨[]⟩, []⟩ url1).1 url2).1.files.length = 1
      ∧ (PDFStore.download_pdf env base_dir comune (PDFStore.download_pdf env base_dir comune (PDFStore.download_pdf env base_dir comune ⟨⟨[]⟩, []⟩ url1).1 url2).1 url2).2 = (StoreStatus.cached, false)
      ∧ (PDFStore.download_pdf env base_dir comune (PDFStore.download_pdf env base_dir comune (PDFStore.download_pdf env base_dir comune ⟨⟨[]⟩, []⟩ url1).1 url2).1 url1).2 = (StoreStatus.deduplicated, true)
      ∧ (PDFStore.download_pdf env base_dir comune (PDFStore.download_pdf env base_dir comune (PDFStore.download_pdf env base_dir comune ⟨⟨[]⟩, []⟩ url1).1 url2).1 url1).1.db.pdfs.length = 1
      ∧ (PDFStore.download_pdf env base_dir comune (PDFStore.download_pdf env base_dir comune (PDFStore.download_pdf env base_dir comune ⟨⟨[]⟩, []⟩ url1).1 url2).1 url1).1.files = (PDFStore.download_pdf env base_dir comune (PDFStore.download_pdf env base_dir comune ⟨⟨[]⟩, []⟩ url1).1 url2).1.files := by
  have e1 : (PDFStore.download_pdf env base_dir comune ⟨⟨[]⟩, []⟩ url1) = ((⟨⟨[(⟨r1.body, url1, (originalNameOf url1), (get_pdf_dir base_dir comune (env.yearDetect r1.body url1 (originalNameOf url1)) ++ "/" ++ (r1.body.toList.take 8).asString ++ "_" ++ sanitize_filename (originalNameOf url1)), (env.yearDetect r1.body url1 (originalNameOf url1)), r1.content_type, r1.body.length⟩ : PdfRow)]⟩, [(get_pdf_dir base_dir comune (env.yearDetect r1.body url1 (originalNameOf url1)) ++ "/" ++ (r1.body.toList.take 8).asString ++ "_" ++ sanitize_filename (originalNameOf url1))]⟩ : StoreState), StoreStatus.downloaded, true) :=
    (download_pdf_of_url_miss env base_dir comune ⟨⟨[]⟩, []⟩ url1 rfl).trans
      (downloadFresh_empty env base_dir comune url1 r1 h1 hs1 hct1)
  have hmiss2 : Catalog.pdf_exists ⟨[(⟨r1.body, url1, (originalNameOf url1), (get_pdf_dir base_dir comune (env.yearDetect r1.body url1 (originalNameOf url1)) ++ "/" ++ (r1.body.toList.take 8).asString ++ "_" ++ sanitize_filename (originalNameOf url1)), (env.yearDetect r1.body url1 (originalNameOf url1)), r1.content_type, r1.body.length⟩ : PdfRow)]⟩ url2 = none := by
    unfold Catalog.pdf_exists
    rw [List.find?_cons_of_neg _ (by simp [hne])]
    rfl
  have e2 : PDFStore.download_pdf env base_dir comune (⟨⟨[(⟨r1.body, url1, (originalNameOf url1), (get_pdf_dir base_dir comune (env.yearDetect r1.body url1 (originalNameOf url1)) ++ "/" ++ (r1.body.toList.take 8).asString ++ "_" ++ sanitize_filename (originalNameOf url1)), (env.yearDetect r1.body url1 (originalNameOf url1)), r1.content_type, r1.body.length⟩ : PdfRow)]⟩, [(get_pdf_dir base_dir comune (env.yearDetect r1.body url1 (originalNameOf url1)) ++ "/" ++ (r1.body.toList.take 8).asString ++ "_" ++ sanitize_filename (originalNameOf url1))]⟩ : StoreState) url2
      = ((⟨⟨[(⟨r2.body, url2, (originalNameOf url2), (⟨r1.body, url1, (originalNameOf url1), (get_pdf_dir base_dir comune (env.yearDetect r1.body url1 (originalNameOf url1)) ++ "/" ++ (r1.body.toList.take 8).asString ++ "_" ++ sanitize_filename (originalNameOf url1)), (env.yearDetect r1.body url1 (originalNameOf url1)), r1.content_type, r1.body.length⟩ : PdfRow).local_path, (⟨r1.body, url1, (originalNameOf url1), (get_pdf_dir base_dir comune (env.yearDetect r1.body url1 (originalNameOf url1)) ++ "/" ++ (r1.body.toList.take 8).asString ++ "_" ++ sanitize_filename (originalNameOf url1)), (env.yearDetect r1.body url1 (originalNameOf url1)), r1.content_type, r1.body.length⟩ : PdfRow).detected_year, r2.content_type, (⟨r1.body, url1, (originalNameOf url1), (get_pdf_dir base_dir comune (env.yearDetect r1.body url1 (originalNameOf url1)) ++ "/" ++ (r1.body.toList.take 8).asString ++ "_" ++ sanitize_filename (originalNameOf url1)), (env.yearDetect r1.body url1 (originalNameOf url1)), r1.content_type, r1.body.length⟩ : PdfRow).size_bytes⟩ : PdfRow)]⟩, [(get_pdf_dir base_dir comune (env.yearDetect r1.body url1 (originalNameOf url1)) ++ "/" ++ (r1.body.toList.take 8).asString ++ "_" ++ sanitize_filename (originalNameOf url1))]⟩ : StoreState), StoreStatus.deduplicated, true) :=
    (download_pdf_of_url_miss env base_dir comune (⟨⟨[(⟨r1.body, url1, (originalNameOf url1), (get_pdf_dir base_dir comune (env.yearDetect r1.body url1 (originalNameOf url1)) ++ "/" ++ (r1.body.toList.take 8).asString ++ "_" ++ sanitize_filename (originalNameOf url1)), (env.yearDetect r1.body url1 (originalNameOf url1)), r1.content_type, r1.body.length⟩ : PdfRow)]⟩, [(get_pdf_dir base_dir comune (env.yearDetect r1.body url1 (originalNameOf url1)) ++ "/" ++ (r1.body.toList.take 8).asString ++ "_" ++ sanitize_filename (originalNameOf url1))]⟩ : StoreState) url2 hmiss2).trans
      (downloadFresh_dedup env base_dir comune url2 r2 (⟨r1.body, url1, (originalNameOf url1), (get_pdf_dir base_dir comune (env.yearDetect r1.body url1 (originalNameOf url1)) ++ "/" ++ (r1.body.toList.take 8).asString ++ "_" ++ sanitize_filename (originalNameOf url1)), (env.yearDetect r1.body url1 (originalNameOf url1)), r1.content_type, r1.body.length⟩ : PdfRow) [(get_pdf_dir base_dir comune (env.yearDetect r1.body url1 (originalNameOf url1)) ++ "/" ++ (r1.body.toList.take 8).asString ++ "_" ++ sanitize_filename (originalNameOf url1))] h2 hs2 hct2 hb.symm)
  have hhit : Catalog.pdf_exists ⟨[(⟨r2.body, url2, (originalNameOf url2), (⟨r1.body, url1, (originalNameOf url1), (get_pdf_dir base_dir comune (env.yearDetect r1.body url1 (originalNameOf url1)) ++ "/" ++ (r1.body.toList.take 8).asString ++ "_" ++ sanitize_filename (originalNameOf url1)), (env.yearDetect r1.body url1 (originalNameOf url1)), r1.content_type, r1.body.length⟩ : PdfRow).local_path, (⟨r1.body, url1, (originalNameOf url1), (get_pdf_dir base_dir comune (env.yearDetect r1.body url1 (originalNameOf url1)) ++ "/" ++ (r1.body.toList.take 8).asString ++ "_" ++ sanitize_filename (originalNameOf url1)), (env.yearDetect r1.body url1 (originalNameOf url1)), r1.content_type, r1.body.length⟩ : PdfRow).detected_year, r2.content_type, (⟨r1.body, url1, (originalNameOf url1), (get_pdf_dir base_dir comune (env.yearDetect r1.body url1 (originalNameOf url1)) ++ "/" ++ (r1.body.toList.take 8).asString ++ "_" ++ sanitize_filename (originalNameOf url1)), (env.yearDetect r1.body url1 (originalNameOf url1)), r1.content_type, r1.body.length⟩ : PdfRow).size_bytes⟩ : PdfRow)]⟩ url2 = some (⟨r2.body, url2, (originalNameOf url2), (⟨r1.body, url1, (originalNameOf url1), (get_pdf_dir base_dir comune (env.yearDetect r1.body url1 (originalNameOf url1)) ++ "/" ++ (r1.body.toList.take 8).asString ++ "_" ++ sanitize_filename (originalNameOf url1)), (env.yearDetect r1.body url1 (originalNameOf url1)), r1.content_type, r1.body.length⟩ : PdfRow).local_path, (⟨r1.body, url1, (originalNameOf url1), (get_pdf_dir base_dir comune (env.yearDetect r1.body url1 (originalNameOf url1)) ++ "/" ++ (r1.body.toList.take 8).asString ++ "_" ++ sanitize_filename (originalNameOf url1)), (env.yearDetect r1.body url1 (originalNameOf url1)), r1.content_type, r1.body.length⟩ : PdfRow).detected_year, r2.content_type, (⟨r1.body, url1, (originalNameOf url1), (get_pdf_dir base_dir comune (env.yearDetect r1.body url1 (originalNameOf url1)) ++ "/" ++ (r1.body.toList.take 8).asString ++ "_" ++ sanitize_filename (originalNameOf url1)), (env.yearDetect r1.body url1 (originalNameOf url1)), r1.content_type, r1.body.length⟩ : PdfRow).size_bytes⟩ : PdfRow) := by
    unfold Catalog.pdf_exists
    exact List.find?_cons_of_pos _ (by simp)
  have e2b : PDFStore.download_pdf env base_dir comune (⟨⟨[(⟨r2.body, url2, (originalNameOf url2), (⟨r1.body, url1, (originalNameOf url1), (get_pdf_dir base_dir comune (env.yearDetect r1.body url1 (originalNameOf url1)) ++ "/" ++ (r1.body.toList.take 8).asString ++ "_" ++ sanitize_filename (originalNameOf url1)), (env.yearDetect r1.body url1 (originalNameOf url1)), r1.content_type, r1.body.length⟩ : PdfRow).local_path, (⟨r1.body, url1, (originalNameOf url1), (get_pdf_dir base_dir comune (env.yearDetect r1.body url1 (originalNameOf url1)) ++ "/" ++ (r1.body.toList.take 8).asString ++ "_" ++ sanitize_filename (originalNameOf url1)), (env.yearDetect r1.body url1 (originalNameOf url1)), r1.content_type, r1.body.length⟩ : PdfRow).detected_year, r2.content_type, (⟨r1.body, url1, (originalNameOf url1), (get_pdf_dir base_dir comune (env.yearDetect r1.body url1 (originalNameOf url1)) ++ "/" ++ (r1.body.toList.take 8).asString ++ "_" ++ sanitize_filename (originalNameOf url1)), (env.yearDetect r1.body url1 (originalNameOf url1)), r1.content_type, r1.body.length⟩ : PdfRow).size_bytes⟩ : PdfRow)]⟩, [(get_pdf_dir base_dir comune (env.yearDetect r1.body url1 (originalNameOf url1)) ++ "/" ++ (r1.body.toList.take 8).asString ++ "_" ++ sanitize_filename (originalNameOf url1))]⟩ : StoreState) url2
      = ((⟨⟨[(⟨r2.body, url2, (originalNameOf url2), (⟨r1.body, url1, (originalNameOf url1), (get_pdf_dir base_dir comune (env.yearDetect r1.body url1 (originalNameOf url1)) ++ "/" ++ (r1.body.toList.take 8).asString ++ "_" ++ sanitize_filename (originalNameOf url1)), (env.yearDetect r1.body url1 (originalNameOf url1)), r1.content_type, r1.body.length⟩ : PdfRow).local_path, (⟨r1.body, url1, (originalNameOf url1), (get_pdf_dir base_dir comune (env.yearDetect r1.body url1 (originalNameOf url1)) ++ "/" ++ (r1.body.toList.take 8).asString ++ "_" ++ sanitize_filename (originalNameOf url1)), (env.yearDetect r1.body url1 (originalNameOf url1)), r1.content_type, r1.body.length⟩ : PdfRow).detected_year, r2.content_type, (⟨r1.body, url1, (originalNameOf url1), (get_pdf_dir base_dir comune (env.yearDetect r1.body url1 (originalNameOf url1)) ++ "/" ++ (r1.body.toList.take 8).asString ++ "_" ++ sanitize_filename (originalNameOf url1)), (env.yearDetect r1.body url1 (originalNameOf url1)), r1.content_type, r1.body.length⟩ : PdfRow).size_bytes⟩ : PdfRow)]⟩, [(get_pdf_dir base_dir comune (env.yearDetect r1.body url1 (originalNameOf url1)) ++ "/" ++ (r1.body.toList.take 8).asString ++ "_" ++ sanitize_filename (originalNameOf url1))]⟩ : StoreState), StoreStatus.cached, false) :=
    download_pdf_of_url_hit env base_dir comune (⟨⟨[(⟨r2.body, url2, (originalNameOf url2), (⟨r1.body, url1, (originalNameOf url1), (get_pdf_dir base_dir comune (env.yearDetect r1.body url1 (originalNameOf url1)) ++ "/" ++ (r1.body.toList.take 8).asString ++ "_" ++ sanitize_filename (originalNameOf url1)), (env.yearDetect r1.body url1 (originalNameOf url1)), r1.content_type, r1.body.length⟩ : PdfRow).local_path, (⟨r1.body, url1, (originalNameOf url1), (get_pdf_dir base_dir comune (env.yearDetect r1.body url1 (originalNameOf url1)) ++ "/" ++ (r1.body.toList.take 8).asString ++ "_" ++ sanitize_filename (originalNameOf url1)), (env.yearDetect r1.body url1 (originalNameOf url1)), r1.content_type, r1.body.length⟩ : PdfRow).detected_year, r2.content_type, (⟨r1.body, url1, (originalNameOf url1), (get_pdf_dir base_dir comune (env.yearDetect r1.body url1 (originalNameOf url1)) ++ "/" ++ (r1.body.toList.take 8).asString ++ "_" ++ sanitize_filename (originalNameOf url1)), (env.yearDetect r1.body url1 (originalNameOf url1)), r1.content_type, r1.body.length⟩ : PdfRow).size_bytes⟩ : PdfRow)]⟩, [(get_pdf_dir base_dir comune (env.yearDetect r1.body url1 (originalNameOf url1)) ++ "/" ++ (r1.body.toList.take 8).asString ++ "_" ++ sanitize_filename (originalNameOf url1))]⟩ : StoreState) url2 (⟨r2.body, url2, (originalNameOf url2), (⟨r1.body, url1, (originalNameOf url1), (get_pdf_dir base_dir comune (env.yearDetect r1.body url1 (originalNameOf url1)) ++ "/" ++ (r1.body.toList.take 8).asString ++ "_" ++ sanitize_filename (originalNameOf url1)), (env.yearDetect r1.body url1 (originalNameOf url1)), r1.content_type, r1.body.length⟩ : PdfRow).local_path, (⟨r1.body, url1, (originalNameOf url1), (get_pdf_dir base_dir comune (env.yearDetect r1.body url1 (originalNameOf url1)) ++ "/" ++ (r1.body.toList.take 8).asString ++ "_" ++ sanitize_filename (originalNameOf url1)), (env.yearDetect r1.body url1 (originalNameOf url1)), r1.content_type, r1.body.length⟩ : PdfRow).detected_year, r2.content_type, (⟨r1.body, url1, (originalNameOf url1), (get_pdf_dir base_dir comune (env.yearDetect r1.body url1 (originalNameOf url1)) ++ "/" ++ (r1.body.toList.take 8).asString ++ "_" ++ sanitize_filename (originalNameOf url1)), (env.yearDetect r1.body url1 (originalNameOf url1)), r1.content_type, r1.body.length⟩ : PdfRow).size_bytes⟩ : PdfRow) hhit
      (by simp)
  have hmiss3 : Catalog.pdf_exists ⟨[(⟨r2.body, url2, (originalNameOf url2), (⟨r1.body, url1, (originalNameOf url1), (get_pdf_dir base_dir comune (env.yearDetect r1.body url1 (originalNameOf url1)) ++ "/" ++ (r1.body.toList.take 8).asString ++ "_" ++ sanitize_filename (originalNameOf url1)), (env.yearDetect r1.body url1 (originalNameOf url1)), r1.content_type, r1.body.length⟩ : PdfRow).local_path, (⟨r1.body, url1, (originalNameOf url1), (get_pdf_dir base_dir comune (env.yearDetect r1.body url1 (originalNameOf url1)) ++ "/" ++ (r1.body.toList.take 8).asString ++ "_" ++ sanitize_filename (originalNameOf url1)), (env.yearDetect r1.body url1 (originalNameOf url1)), r1.content_type, r1.body.length⟩ : PdfRow).detected_year, r2.content_type, (⟨r1.body, url1, (originalNameOf url1), (get_pdf_dir base_dir comune (env.yearDetect r1.body url1 (originalNameOf url1)) ++ "/" ++ (r1.body.toList.take 8).asString ++ "_" ++ sanitize_filename (originalNameOf url1)), (env.yearDetect r1.body url1 (originalNameOf url1)), r1.content_type, r1.body.length⟩ : PdfRow).size_bytes⟩ : PdfRow)]⟩ url1 = none := by
    unfold Catalog.pdf_exists
    rw [List.find?_cons_of_neg _ (by simp [Ne.symm hne])]
    rfl
  have e3 : PDFStore.download_pdf env base_dir comune (⟨⟨[(⟨r2.body, url2, (originalNameOf url2), (⟨r1.body, url1, (originalNameOf url1), (get_pdf_dir base_dir comune (env.yearDetect r1.body url1 (originalNameOf url1)) ++ "/" ++ (r1.body.toList.take 8).asString ++ "_" ++ sanitize_filename (originalNameOf url1)), (env.yearDetect r1.body url1 (originalNameOf url1)), r1.content_type, r1.body.length⟩ : PdfRow).local_path, (⟨r1.body, url1, (originalNameOf url1), (get_pdf_dir base_dir comune (env.yearDetect r1.body url1 (originalNameOf url1)) ++ "/" ++ (r1.body.toList.take 8).asString ++ "_" ++ sanitize_filename (originalNameOf url1)), (env.yearDetect r1.body url1 (originalNameOf url1)), r1.content_type, r1.body.length⟩ : PdfRow).detected_year, r2.content_type, (⟨r1.body, url1, (originalNameOf url1), (get_pdf_dir base_dir comune (env.yearDetect r1.body url1 (originalNameOf url1)) ++ "/" ++ (r1.body.toList.take 8).asString ++ "_" ++ sanitize_filename (originalNameOf url1)), (env.yearDetect r1.body url1 (originalNameOf url1)), r1.content_type, r1.body.length⟩ : PdfRow).size_bytes⟩ : PdfRow)]⟩, [(get_pdf_dir base_dir comune (env.yearDetect r1.body url1 (originalNameOf url1)) ++ "/" ++ (r1.body.toList.take 8).asString ++ "_" ++ sanitize_filename (originalNameOf url1))]⟩ : StoreState) url1
      = ((⟨⟨[(⟨r1.body, url1, (originalNameOf url1), (⟨r2.body, url2, (originalNameOf url2), (⟨r1.body, url1, (originalNameOf url1), (get_pdf_dir base_dir comune (env.yearDetect r1.body url1 (originalNameOf url1)) ++ "/" ++ (r1.body.toList.take 8).asString ++ "_" ++ sanitize_filename (originalNameOf url1)), (env.yearDetect r1.body url1 (originalNameOf url1)), r1.content_type, r1.body.length⟩ : PdfRow).local_path, (⟨r1.body, url1, (originalNameOf url1), (get_pdf_dir base_dir comune (env.yearDetect r1.body url1 (originalNameOf url1)) ++ "/" ++ (r1.body.toList.take 8).asString ++ "_" ++ sanitize_filename (originalNameOf url1)), (env.yearDetect r1.body url1 (originalNameOf url1)), r1.content_type, r1.body.length⟩ : PdfRow).detected_year, r2.content_type, (⟨r1.body, url1, (originalNameOf url1), (get_pdf_dir base_dir comune (env.yearDetect r1.body url1 (originalNameOf url1)) ++ "/" ++ (r1.body.toList.take 8).asString ++ "_" ++ sanitize_filename (originalNameOf url1)), (env.yearDetect r1.body url1 (originalNameOf url1)), r1.content_type, r1.body.length⟩ : PdfRow).size_bytes⟩ : PdfRow).local_path, (⟨r2.body, url2, (originalNameOf url2), (⟨r1.body, url1, (originalNameOf url1), (get_pdf_dir base_dir comune (env.yearDetect r1.body url1 (originalNameOf url1)) ++ "/" ++ (r1.body.toList.take 8).asString ++ "_" ++ sanitize_filename (originalNameOf url1)), (env.yearDetect r1.body url1 (originalNameOf url1)), r1.content_type, r1.body.length⟩ : PdfRow).local_path, (⟨r1.body, url1, (originalNameOf url1), (get_pdf_dir base_dir comune (env.yearDetect r1.body url1 (originalNameOf url1)) ++ "/" ++ (r1.body.toList.take 8).asString ++ "_" ++ sanitize_filename (originalNameOf url1)), (env.yearDetect r1.body url1 (originalNameOf url1)), r1.content_type, r1.body.length⟩ : PdfRow).detected_year, r2.content_type, (⟨r1.body, url1, (originalNameOf url1), (get_pdf_dir base_dir comune (env.yearDetect r1.body url1 (originalNameOf url1)) ++ "/" ++ (r1.body.toList.take 8).asString ++ "_" ++ sanitize_filename (originalNameOf url1)), (env.yearDetect r1.body url1 (originalNameOf url1)), r1.content_type, r1.body.length⟩ : PdfRow).size_bytes⟩ : PdfRow).detected_year, r1.content_type, (⟨r2.body, url2, (originalNameOf url2), (⟨r1.body, url1, (originalNameOf url1), (get_pdf_dir base_dir comune (env.yearDetect r1.body url1 (originalNameOf url1)) ++ "/" ++ (r1.body.toList.take 8).asString ++ "_" ++ sanitize_filename (originalNameOf url1)), (env.yearDetect r1.body url1 (originalNameOf url1)), r1.content_type, r1.body.length⟩ : PdfRow).local_path, (⟨r1.body, url1, (originalNameOf url1), (get_pdf_dir base_dir comune (env.yearDetect r1.body url1 (originalNameOf url1)) ++ "/" ++ (r1.body.toList.take 8).asString ++ "_" ++ sanitize_filename (originalNameOf url1)), (env.yearDetect r1.body url1 (originalNameOf url1)), r1.content_type, r1.body.length⟩ : PdfRow).detected_year, r2.content_type, (⟨r1.body, url1, (originalNameOf url1), (get_pdf_dir base_dir comune (env.yearDetect r1.body url1 (originalNameOf url1)) ++ "/" ++ (r1.body.toList.take 8).asString ++ "_" ++ sanitize_filename (originalNameOf url1)), (env.yearDetect r1.body url1 (originalNameOf url1)), r1.content_type, r1.body.length⟩ : PdfRow).size_bytes⟩ : PdfRow).size_bytes⟩ : PdfRow)]⟩, [(get_pdf_dir base_dir comune (env.yearDetect r1.body url1 (originalNameOf url1)) ++ "/" ++ (r1.body.toList.take 8).asString ++ "_" ++ sanitize_filename (originalNameOf url1))]⟩ : StoreState), StoreStatus.deduplicated, true) :=
    (download_pdf_of_url_miss env base_dir comune (⟨⟨[(⟨r2.body, url2, (originalNameOf url2), (⟨r1.body, url1, (originalNameOf url1), (get_pdf_dir base_dir comune (env.yearDetect r1.body url1 (originalNameOf url1)) ++ "/" ++ (r1.body.toList.take 8).asString ++ "_" ++ sanitize_filename (originalNameOf url1)), (env.yearDetect r1.body url1 (originalNameOf url1)), r1.content_type, r1.body.length⟩ : PdfRow).local_path, (⟨r1.body, url1, (originalNameOf url1), (get_pdf_dir base_dir comune (env.yearDetect r1.body url1 (originalNameOf url1)) ++ "/" ++ (r1.body.toList.take 8).asString ++ "_" ++ sanitize_filename (originalNameOf url1)), (env.yearDetect r1.body url1 (originalNameOf url1)), r1.content_type, r1.body.length⟩ : PdfRow).detected_year, r2.content_type, (⟨r1.body, url1, (originalNameOf url1), (get_pdf_dir base_dir comune (env.yearDetect r1.body url1 (originalNameOf url1)) ++ "/" ++ (r1.body.toList.take 8).asString ++ "_" ++ sanitize_filename (originalNameOf url1)), (env.yearDetect r1.body url1 (originalNameOf url1)), r1.content_type, r1.body.length⟩ : PdfRow).size_bytes⟩ : PdfRow)]⟩, [(get_pdf_dir base_dir comune (env.yearDetect r1.body url1 (originalNameOf url1)) ++ "/" ++ (r1.body.toList.take 8).asString ++ "_" ++ sanitize_filename (originalNameOf url1))]⟩ : StoreState) url1 hmiss3).trans
      (downloadFresh_dedup env base_dir comune url1 r1 (⟨r2.body, url2, (originalNameOf url2), (⟨r1.body, url1, (originalNameOf url1), (get_pdf_dir base_dir comune (env.yearDetect r1.body url1 (originalNameOf url1)) ++ "/" ++ (r1.body.toList.take 8).asString ++ "_" ++ sanitize_filename (originalNameOf url1)), (env.yearDetect r1.body url1 (originalNameOf url1)), r1.content_type, r1.body.length⟩ : PdfRow).local_path, (⟨r1.body, url1, (originalNameOf url1), (get_pdf_dir base_dir comune (env.yearDetect r1.body url1 (originalNameOf url1)) ++ "/" ++ (r1.body.toList.take 8).asString ++ "_" ++ sanitize_filename (originalNameOf url1)), (env.yearDetect r1.body url1 (originalNameOf url1)), r1.content_type, r1.body.length⟩ : PdfRow).detected_year, r2.content_type, (⟨r1.body, url1, (originalNameOf url1), (get_pdf_dir base_dir comune (env.yearDetect r1.body url1 (originalNameOf url1)) ++ "/" ++ (r1.body.toList.take 8).asString ++ "_" ++ sanitize_filename (originalNameOf url1)), (env.yearDetect r1.body url1 (originalNameOf url1)), r1.content_type, r1.body.length⟩ : PdfRow).size_bytes⟩ : PdfRow) [(get_pdf_dir base_dir comune (env.yearDetect r1.body url1 (originalNameOf url1)) ++ "/" ++ (r1.body.toList.take 8).asString ++ "_" ++ sanitize_filename (originalNameOf url1))] h1 hs1 hct1 hb)
  rw [e1]
  dsimp only
  rw [e2]
  dsimp only
  rw [e2b, e3]
  refine ⟨rfl, rfl, rfl, ?_, rfl, rfl, rfl, rfl, rfl⟩
  intro row hrow
  have hrow2 : row = (⟨r2.body, url2, (originalNameOf url2), (⟨r1.body, url1, (originalNameOf url1), (get_pdf_dir base_dir comune (env.yearDetect r1.body url1 (originalNameOf url1)) ++ "/" ++ (r1.body.toList.take 8).asString ++ "_" ++ sanitize_filename (originalNameOf url1)), (env.yearDetect r1.body url1 (originalNameOf url1)), r1.content_type, r1.body.length⟩ : PdfRow).local_path, (⟨r1.body, url1, (originalNameOf url1), (get_pdf_dir base_dir comune (env.yearDetect r1.body url1 (originalNameOf url1)) ++ "/" ++ (r1.body.toList.take 8).asString ++ "_" ++ sanitize_filename (originalNameOf url1)), (env.yearDetect r1.body url1 (originalNameOf url1)), r1.content_type, r1.body.length⟩ : PdfRow).detected_year, r2.content_type, (⟨r1.body, url1, (originalNameOf url1), (get_pdf_dir base_dir comune (env.yearDetect r1.body url1 (originalNameOf url1)) ++ "/" ++ (r1.body.toList.take 8).asString ++ "_" ++ sanitize_filename (originalNameOf url1)), (env.yearDetect r1.body url1 (originalNameOf url1)), r1.content_type, r1.body.length⟩ : PdfRow).size_bytes⟩ : PdfRow) := List.mem_singleton.mp hrow
  subst hrow2
  exact ⟨hb, rfl, List.mem_singleton.mpr rfl⟩

/-- C2 counterexample: after the dedup overwrote the single catalog row's
URL with the second URL, a later store on the FIRST URL does not resolve
to the record: it performs a network request and returns `Deduplicated`,
not `Cached`, contradicting the claim that both URLs thereafter resolve
to the record without a network call. -/
theorem C2_counterexample :
    (PDFStore.download_pdf sampleStoreEnv "data" "roma" ⟨⟨[]⟩, []⟩ "http://a.example/x.pdf").2.1 = StoreStatus.downloaded
      ∧ (PDFStore.download_pdf sampleStoreEnv "data" "roma" (PDFStore.download_pdf sampleStoreEnv "data" "roma" ⟨⟨[]⟩, []⟩ "http://a.example/x.pdf").1 "http://b.example/mirror/x.pdf").2.1 = StoreStatus.deduplicated
      ∧ (PDFStore.download_pdf sampleStoreEnv "data" "roma" (PDFStore.download_pdf sampleStoreEnv "data" "roma" (PDFStore.download_pdf sampleStoreEnv "data" "roma" ⟨⟨[]⟩, []⟩ "http://a.example/x.pdf").1 "http://b.example/mirror/x.pdf").1 "http://a.example/x.pdf").2 = (StoreStatus.deduplicated, true)
      ∧ (PDFStore.download_pdf sampleStoreEnv "data" "roma" (PDFStore.download_pdf sampleStoreEnv "data" "roma" (PDFStore.download_pdf sampleStoreEnv "data" "roma" ⟨⟨[]⟩, []⟩ "http://a.example/x.pdf").1 "http://b.example/mirror/x.pdf").1 "http://a.example/x.pdf").2.1 ≠ StoreStatus.cached
      ∧ (PDFStore.download_pdf sampleStoreEnv "data" "roma" (PDFStore.download_pdf sampleStoreEnv "data" "roma" (PDFStore.download_pdf sampleStoreEnv "data" "roma" ⟨⟨[]⟩, []⟩ "http://a.example/x.pdf").1 "http://b.example/mirror/x.pdf").1 "http://a.example/x.pdf").2.2 = true := by
  refine ⟨by decide, by decide, by decide, by decide, by decide⟩

/-- C2 witness: the amended theorem applied to the concrete two-URL
mirror scenario; all hypotheses are discharged by evaluation. -/
theorem C2_witness :
    (PDFStore.download_pdf sampleStoreEnv "data" "roma" (PDFStore.download_pdf sampleStoreEnv "data" "roma" ⟨⟨[]⟩, []⟩ "http://a.example/x.pdf").1 "http://b.example/mirror/x.pdf").1.db.pdfs.length = 1
      ∧ (PDFStore.download_pdf sampleStoreEnv "data" "roma" (PDFStore.download_pdf sampleStoreEnv "data" "roma" ⟨⟨[]⟩, []⟩ "http://a.example/x.pdf").1 "http://b.example/mirror/x.pdf").1.files.length = 1
      ∧ (PDFStore.download_pdf sampleStoreEnv "data" "roma" (PDFStore.download_pdf sampleStoreEnv "data" "roma" ⟨⟨[]⟩, []⟩ "http://a.example/x.pdf").1 "http://b.example/mirror/x.pdf").2 = (StoreStatus.deduplicated, true) :=
  have H := C2_dedup_single_record_amended sampleStoreEnv "data" "roma"
    "http://a.example/x.pdf" "http://b.example/mirror/x.pdf"
    ⟨200, "application/pdf", "PDFBYTES"⟩ ⟨200, "application/pdf", "PDFBYTES"⟩
    (by decide) (by decide) (by decide) rfl rfl rfl (by decide) (by decide)
  ⟨H.2.2.1, H.2.2.2.2.1, H.2.1⟩
